import Mathlib

/-!
Verification development for the AWS project-planning repository's pricing
subsystem.  The Python sources are shallowly embedded: dictionaries of fixed
shape become records, machine floats become exact rationals (`ℚ`), fallible
code returns `Except`, and the two browser-automation entry points are
modelled as deterministic functions of an explicit environment describing the
outcome of every external browser/API operation, returning the final result
together with a trace of the externally visible effects.
-/

namespace AwsPlanning

/-- A Python number as it appears in YAML/JSON data: either an `int` or a
`float`.  The distinction matters for JSON serialization (`100` vs `100.0`). -/
inductive PyNum where
  | int (n : Int)
  | float (q : ℚ)
deriving DecidableEq, Repr

/-- Numeric value of a `PyNum`. -/
def PyNum.toRat : PyNum → ℚ
  | .int n => (n : ℚ)
  | .float q => q

/-- The `specs` dictionary of a resource, restricted to the keys the code
ever reads (`instance_type`, `engine`, `storage_gb`, `storage_class`); an
absent key is `none`. -/
structure Specs where
  instance_type : Option String := none
  engine : Option String := none
  storage_gb : Option PyNum := none
  storage_class : Option String := none
deriving DecidableEq, Repr

/-- `ResourceConfig` from `core/pricing/calculator.py`. -/
structure ResourceConfig where
  service : String
  resource_type : String
  specs : Specs
  region : String
  quantity : Int := 1
  usage_hours : ℚ := 730.0
deriving DecidableEq, Repr

/-- The `details` dictionary of a `PricingResult`, one shape per service
branch of `calculate_resource_cost`. -/
inductive Details where
  | ec2 (instance_type region : String) (hourly_rate : ℚ)
  | rds (instance_type engine : String) (storage_gb : ℚ) (region : String)
      (hourly_rate storage_price_per_gb storage_cost : ℚ)
  | s3 (storage_class : String) (storage_gb : ℚ) (region : String) (gb_month_rate : ℚ)
  | fixedMonthly (region : String) (monthly_rate : ℚ)
deriving DecidableEq, Repr

/-- `PricingResult` from `core/pricing/calculator.py`. -/
structure PricingResult where
  resource_type : String
  unit_price : ℚ
  quantity : Int
  usage_hours : ℚ
  monthly_cost : ℚ
  details : Details
deriving DecidableEq, Repr

/-- A Python exception raised by `calculate_resource_cost`: the explicit
`ValueError` for an unsupported service, or the `KeyError` from a mandatory
`specs[...]` access on a missing key. -/
inductive CalcError where
  | valueError (msg : String)
  | keyError (key : String)
deriving DecidableEq, Repr

/-- One `priceDimensions` entry of an AWS pricing-API item: its
`pricePerUnit` mapping from currency code to price. -/
structure PriceDimension where
  pricePerUnit : List (String × ℚ)
deriving DecidableEq, Repr

/-- One item of the pricing API's `PriceList`: its `terms.OnDemand`
dictionary, mapping term keys to `priceDimensions` (dimension key ×
dimension). -/
structure PriceItem where
  onDemandTerms : List (String × List (String × PriceDimension))
deriving DecidableEq, Repr

/-- Outcome of one `pricing_client.get_products` call: the call raises, or
returns a `PriceList`. -/
inductive ApiOutcome where
  | raises
  | returns (priceList : List PriceItem)
deriving DecidableEq, Repr

/-- `FALLBACK_PRICES["ec2"]` (USD per hour). -/
def FALLBACK_PRICES_ec2 : List (String × ℚ) :=
  [("t3.nano", 0.0052), ("t3.micro", 0.0104), ("t3.small", 0.0208),
   ("t3.medium", 0.0416), ("t3.large", 0.0832), ("t3.xlarge", 0.1664),
   ("t3.2xlarge", 0.3328), ("m5.large", 0.096), ("m5.xlarge", 0.192),
   ("m5.2xlarge", 0.384), ("m5.4xlarge", 0.768)]

/-- `FALLBACK_PRICES["rds"]` (USD per hour; `storage` is per GB-month). -/
def FALLBACK_PRICES_rds : List (String × ℚ) :=
  [("db.t3.micro", 0.017), ("db.t3.small", 0.034), ("db.t3.medium", 0.068),
   ("db.t3.large", 0.136), ("db.t3.xlarge", 0.272), ("db.t3.2xlarge", 0.544),
   ("db.m5.large", 0.155), ("db.m5.xlarge", 0.31), ("db.m5.2xlarge", 0.62),
   ("db.m5.4xlarge", 1.24), ("storage", 0.115)]

/-- `FALLBACK_PRICES["s3"]` (USD per GB-month). -/
def FALLBACK_PRICES_s3 : List (String × ℚ) :=
  [("Standard", 0.023), ("Standard-IA", 0.0125), ("Glacier", 0.004)]

/-- First `USD` price found inside one pricing-API item, scanning its
`OnDemand` terms and their price dimensions in order. -/
def itemFirstUSD (item : PriceItem) : Option ℚ :=
  item.onDemandTerms.foldr
    (fun term acc =>
      (term.2.foldr
        (fun dim acc2 =>
          match dim.2.pricePerUnit.lookup "USD" with
          | some p => some p
          | none => acc2)
        none).orElse (fun _ => acc))
    none

/-- `AWSPriceCalculator._extract_price`: return the first USD price found in
the price list, `None` if there is none. -/
def extract_price : List PriceItem → Option ℚ
  | [] => none
  | item :: rest =>
    match itemFirstUSD item with
    | some p => some p
    | none => extract_price rest

/-- `AWSPriceCalculator._get_ec2_price`: API price if the call succeeds and
yields a USD price, otherwise the static EC2 fallback table with default
`0.05` per hour.  The `region` argument only feeds the API filters. -/
def get_ec2_price (api : ApiOutcome) (instance_type : String) (_region : String) : ℚ :=
  match api with
  | .raises => ((FALLBACK_PRICES_ec2.lookup instance_type).getD 0.05)
  | .returns l =>
    match extract_price l with
    | some p => p
    | none => ((FALLBACK_PRICES_ec2.lookup instance_type).getD 0.05)

/-- `AWSPriceCalculator._get_rds_price`: `storage` is answered from the
fallback table without an API call; otherwise API price if available, else
the static RDS fallback table with default `0.1` per hour. -/
def get_rds_price (api : ApiOutcome) (instance_type : String) (_engine _region : String) : ℚ :=
  if instance_type = "storage" then
    (FALLBACK_PRICES_rds.lookup "storage").getD 0.115
  else
    match api with
    | .raises => ((FALLBACK_PRICES_rds.lookup instance_type).getD 0.1)
    | .returns l =>
      match extract_price l with
      | some p => p
      | none => ((FALLBACK_PRICES_rds.lookup instance_type).getD 0.1)

/-- `AWSPriceCalculator._get_s3_price`: API price if available, else the
static S3 fallback table with default `0.023` per GB-month. -/
def get_s3_price (api : ApiOutcome) (storage_class : String) (_region : String) : ℚ :=
  match api with
  | .raises => ((FALLBACK_PRICES_s3.lookup storage_class).getD 0.023)
  | .returns l =>
    match extract_price l with
    | some p => p
    | none => ((FALLBACK_PRICES_s3.lookup storage_class).getD 0.023)

/-- `AWSPriceCalculator.calculate_resource_cost`.  `api` is the outcome of
the (at most one) pricing-API request the branch makes. -/
def calculate_resource_cost (api : ApiOutcome) (resource : ResourceConfig) :
    Except CalcError PricingResult :=
  if resource.service = "ec2" then
    match resource.specs.instance_type with
    | none => .error (.keyError "instance_type")
    | some it =>
      let unit_price := get_ec2_price api it resource.region
      let monthly_cost := unit_price * resource.quantity * resource.usage_hours
      .ok { resource_type := "EC2 " ++ it
            unit_price := unit_price
            quantity := resource.quantity
            usage_hours := resource.usage_hours
            monthly_cost := monthly_cost
            details := .ec2 it resource.region unit_price }
  else if resource.service = "rds" then
    match resource.specs.instance_type, resource.specs.engine with
    | none, _ => .error (.keyError "instance_type")
    | some _, none => .error (.keyError "engine")
    | some it, some eng =>
      let unit_price := get_rds_price api it eng resource.region
      let monthly_cost := unit_price * resource.quantity * resource.usage_hours
      let storage_gb := ((resource.specs.storage_gb).getD (.int 0)).toRat
      let storage_price := get_rds_price api "storage" eng resource.region
      let storage_cost := storage_price * storage_gb
      let total_cost := monthly_cost + storage_cost
      .ok { resource_type := "RDS " ++ it
            unit_price := unit_price
            quantity := resource.quantity
            usage_hours := resource.usage_hours
            monthly_cost := total_cost
            details := .rds it eng storage_gb resource.region unit_price storage_price storage_cost }
  else if resource.service = "s3" then
    let storage_class := (resource.specs.storage_class).getD "Standard"
    let unit_price := get_s3_price api storage_class resource.region
    let storage_gb := ((resource.specs.storage_gb).getD (.int 0)).toRat
    let monthly_cost := unit_price * storage_gb
    .ok { resource_type := "S3 " ++ storage_class
          unit_price := unit_price
          quantity := 1
          usage_hours := 730
          monthly_cost := monthly_cost
          details := .s3 storage_class storage_gb resource.region unit_price }
  else if resource.service = "sqs" then
    .ok { resource_type := "SQS Standard Queue", unit_price := 0.40, quantity := 1
          usage_hours := 730, monthly_cost := 0.40
          details := .fixedMonthly resource.region 0.40 }
  else if resource.service = "cloudwatch" then
    .ok { resource_type := "CloudWatch Monitoring", unit_price := 0.30, quantity := 1
          usage_hours := 730, monthly_cost := 0.30
          details := .fixedMonthly resource.region 0.30 }
  else if resource.service = "waf" then
    .ok { resource_type := "WAF", unit_price := 5.00, quantity := 1
          usage_hours := 730, monthly_cost := 5.00
          details := .fixedMonthly resource.region 5.00 }
  else
    .error (.valueError ("Unsupported service: " ++ resource.service))

/-- One entry of the `resources` list returned by `calculate_total_cost`. -/
structure CostEntry where
  type : String
  monthly_cost : ℚ
  details : Details
deriving DecidableEq, Repr

/-- The dictionary returned by `calculate_total_cost`. -/
structure TotalCost where
  total_monthly_cost : ℚ
  resources : List CostEntry
deriving DecidableEq, Repr

/-- The loop body of `calculate_total_cost`: per-resource results in input
order; a raised exception propagates.  `api` gives each resource's
pricing-API outcome. -/
def calcResults (api : ResourceConfig → ApiOutcome) :
    List ResourceConfig → Except CalcError (List PricingResult)
  | [] => .ok []
  | r :: rs =>
    match calculate_resource_cost (api r) r with
    | .error e => .error e
    | .ok res =>
      match calcResults api rs with
      | .error e => .error e
      | .ok rest => .ok (res :: rest)

/-- The `resources` entry built from one `PricingResult` by
`calculate_total_cost`. -/
def toCostEntry (r : PricingResult) : CostEntry :=
  { type := r.resource_type, monthly_cost := r.monthly_cost, details := r.details }

/-- `AWSPriceCalculator.calculate_total_cost`. -/
def calculate_total_cost (api : ResourceConfig → ApiOutcome)
    (resources : List ResourceConfig) : Except CalcError TotalCost :=
  match calcResults api resources with
  | .error e => .error e
  | .ok results =>
    .ok { total_monthly_cost := (results.map (fun r => r.monthly_cost)).sum
          resources := results.map toCostEntry }

/-! ## String, JSON, base64 and percent-encoding helpers

These model the Python library calls used by `web_calculator.py`:
`json.dumps` (default separators, `ensure_ascii=True`), `str()` of numbers,
`base64.b64encode` on UTF-8 bytes, and `urllib.parse.quote` (default
`safe='/'`). -/

/-- Lowercase hexadecimal digit. -/
def hexLowerDigit (n : Nat) : Char := "0123456789abcdef".toList.getD n '0'

/-- Uppercase hexadecimal digit. -/
def hexUpperDigit (n : Nat) : Char := "0123456789ABCDEF".toList.getD n '0'

/-- Four lowercase hex digits of a code unit, as in JSON `\uXXXX` escapes. -/
def hex4 (n : Nat) : List Char :=
  [hexLowerDigit (n / 4096 % 16), hexLowerDigit (n / 256 % 16),
   hexLowerDigit (n / 16 % 16), hexLowerDigit (n % 16)]

/-- A JSON `\uXXXX` escape for one UTF-16 code unit. -/
def uEscape (n : Nat) : List Char := '\\' :: 'u' :: hex4 n

/-- How `json.dumps` with `ensure_ascii=True` renders one character:
shorthand escapes for quote, backslash and common controls, `\uXXXX` for
other controls and all characters outside `0x20..0x7e` (surrogate pairs
beyond the BMP), the character itself otherwise. -/
def jsonEscapeChar (c : Char) : List Char :=
  if c = '"' then ['\\', '"']
  else if c = '\\' then ['\\', '\\']
  else if c = '\n' then ['\\', 'n']
  else if c = '\t' then ['\\', 't']
  else if c = '\r' then ['\\', 'r']
  else if c.toNat = 8 then ['\\', 'b']
  else if c.toNat = 12 then ['\\', 'f']
  else if c.toNat < 0x20 ∨ 0x7e < c.toNat then
    if c.toNat < 0x10000 then uEscape c.toNat
    else
      let v := c.toNat - 0x10000
      uEscape (0xd800 + v / 1024) ++ uEscape (0xdc00 + v % 1024)
  else [c]

/-- JSON rendering of a Python string (quotes plus escaping). -/
def jsonStr (s : String) : String :=
  "\"" ++ String.mk (s.toList.flatMap jsonEscapeChar) ++ "\""

/-- Decimal digits of the fractional part of `0 ≤ q < 1`, with fuel bounding
the expansion (every float occurring here has a finite decimal expansion). -/
def fracDigitChars : Nat → ℚ → List Char
  | 0, _ => []
  | fuel + 1, q =>
    if q = 0 then []
    else
      let q10 := q * 10
      let d : Int := q10.num / q10.den
      Char.ofNat (48 + d.toNat) :: fracDigitChars fuel (q10 - (d : ℚ))

/-- `repr()` of a non-negative Python float with a plain finite decimal
expansion (e.g. `730.0`, `0.5`). -/
def pyFloatReprNonneg (q : ℚ) : String :=
  let ip : Int := q.num / q.den
  let ds := fracDigitChars 17 (q - (ip : ℚ))
  toString ip ++ "." ++ (if ds.isEmpty then "0" else String.mk ds)

/-- `repr()` of a Python float with a plain finite decimal expansion. -/
def pyFloatRepr (q : ℚ) : String :=
  if q < 0 then "-" ++ pyFloatReprNonneg (-q) else pyFloatReprNonneg q

/-- `str()` (= JSON rendering) of a Python number. -/
def PyNum.pyStr : PyNum → String
  | .int n => toString n
  | .float q => pyFloatRepr q

/-- UTF-8 bytes of one character. -/
def utf8Char (c : Char) : List Nat :=
  let n := c.toNat
  if n < 0x80 then [n]
  else if n < 0x800 then [0xc0 + n / 64, 0x80 + n % 64]
  else if n < 0x10000 then [0xe0 + n / 4096, 0x80 + n / 64 % 64, 0x80 + n % 64]
  else [0xf0 + n / 262144, 0x80 + n / 4096 % 64, 0x80 + n / 64 % 64, 0x80 + n % 64]

/-- UTF-8 encoding of a string (`str.encode()`). -/
def utf8Bytes (s : String) : List Nat := s.toList.flatMap utf8Char

/-- The standard base64 alphabet. -/
def b64Char (n : Nat) : Char :=
  "ABCDEFGHIJKLMNOPQRSTUVWXYZabcdefghijklmnopqrstuvwxyz0123456789+/".toList.getD n 'A'

/-- Base64 encoding of a byte list, three bytes per four output characters,
padded with `=`. -/
def b64Chunks : List Nat → List Char
  | [] => []
  | [a] => [b64Char (a / 4), b64Char (a % 4 * 16), '=', '=']
  | [a, b] => [b64Char (a / 4), b64Char (a % 4 * 16 + b / 16), b64Char (b % 16 * 4), '=']
  | a :: b :: c :: rest =>
    b64Char (a / 4) :: b64Char (a % 4 * 16 + b / 16) ::
      b64Char (b % 16 * 4 + c / 64) :: b64Char (c % 64) :: b64Chunks rest

/-- `base64.b64encode(...).decode()`. -/
def b64encode (bytes : List Nat) : String := String.mk (b64Chunks bytes)

/-- How `urllib.parse.quote` (default `safe='/'`) renders one byte: kept for
unreserved characters `A-Z a-z 0-9 _ . - ~` and the safe `/`, percent-encoded
with uppercase hex otherwise. -/
def quoteByte (b : Nat) : List Char :=
  if (65 ≤ b ∧ b ≤ 90) ∨ (97 ≤ b ∧ b ≤ 122) ∨ (48 ≤ b ∧ b ≤ 57)
      ∨ b = 95 ∨ b = 46 ∨ b = 45 ∨ b = 126 ∨ b = 47 then
    [Char.ofNat b]
  else
    ['%', hexUpperDigit (b / 16), hexUpperDigit (b % 16)]

/-- `urllib.parse.quote` with its default `safe='/'`, applied to the UTF-8
bytes of the string. -/
def urlQuote (s : String) : String := String.mk ((utf8Bytes s).flatMap quoteByte)

/-! ## `web_calculator.py`: `AWSWebCalculator` -/

/-- `AWSWebCalculator.CALCULATOR_BASE_URL`. -/
def CALCULATOR_BASE_URL : String := "https://calculator.aws/#/estimate"

/-- `AWSWebCalculator.EC2_TYPE_MAP`: instance type to (family, type). -/
def EC2_TYPE_MAP : List (String × String × String) :=
  [("t3.nano", "t3", "t3.nano"), ("t3.micro", "t3", "t3.micro"),
   ("t3.small", "t3", "t3.small"), ("t3.medium", "t3", "t3.medium"),
   ("t3.large", "t3", "t3.large"), ("t3.xlarge", "t3", "t3.xlarge"),
   ("t3.2xlarge", "t3", "t3.2xlarge"),
   ("m5.large", "m5", "m5.large"), ("m5.xlarge", "m5", "m5.xlarge"),
   ("m5.2xlarge", "m5", "m5.2xlarge"), ("m5.4xlarge", "m5", "m5.4xlarge"),
   ("c5.large", "c5", "c5.large"), ("c5.xlarge", "c5", "c5.xlarge"),
   ("c5.2xlarge", "c5", "c5.2xlarge"),
   ("r5.large", "r5", "r5.large"), ("r5.xlarge", "r5", "r5.xlarge"),
   ("r5.2xlarge", "r5", "r5.2xlarge")]

/-- `AWSWebCalculator.RDS_TYPE_MAP`. -/
def RDS_TYPE_MAP : List (String × String × String) :=
  [("db.t3.micro", "db.t3", "db.t3.micro"), ("db.t3.small", "db.t3", "db.t3.small"),
   ("db.t3.medium", "db.t3", "db.t3.medium"), ("db.t3.large", "db.t3", "db.t3.large"),
   ("db.t3.xlarge", "db.t3", "db.t3.xlarge"), ("db.t3.2xlarge", "db.t3", "db.t3.2xlarge"),
   ("db.m5.large", "db.m5", "db.m5.large"), ("db.m5.xlarge", "db.m5", "db.m5.xlarge"),
   ("db.m5.2xlarge", "db.m5", "db.m5.2xlarge")]

/-- `AWSWebCalculator.RDS_ENGINE_MAP`. -/
def RDS_ENGINE_MAP : List (String × String) :=
  [("mysql", "MySQL"), ("postgres", "PostgreSQL"), ("postgresql", "PostgreSQL"),
   ("mariadb", "MariaDB"), ("oracle", "Oracle"), ("sqlserver", "SQL Server")]

/-- `AWSWebCalculator.S3_STORAGE_CLASS_MAP`. -/
def S3_STORAGE_CLASS_MAP : List (String × String) :=
  [("Standard", "General Purpose"), ("standard", "General Purpose"),
   ("StandardIA", "Infrequent Access"), ("standard-ia", "Infrequent Access"),
   ("OneZoneIA", "One Zone-IA"), ("onezone-ia", "One Zone-IA"),
   ("Glacier", "Glacier Flexible Retrieval"), ("glacier", "Glacier Flexible Retrieval"),
   ("DeepArchive", "Glacier Deep Archive"), ("deep-archive", "Glacier Deep Archive"),
   ("Intelligent-Tiering", "Intelligent-Tiering"), ("intelligent-tiering", "Intelligent-Tiering")]

/-- One entry of a calculator entry's `costComponents` list.  Each
constructor carries exactly the fields of the corresponding dictionary in
`web_calculator.py` that are not constants; the constant keys are restored
by `dumpsCostComponent`. -/
inductive CostComponent where
  | ec2Instance (monthlyQuantity : ℚ) (family instanceType region : String)
  | rdsInstance (monthlyQuantity : ℚ) (family instanceType databaseEngine region : String)
  | rdsStorage (monthlyQuantity : PyNum) (region : String)
  | s3Storage (monthlyQuantity : PyNum) (storageClass region : String)
deriving DecidableEq, Repr

/-- One per-resource dictionary of the calculator payload (`quantity` is
absent for S3 entries). -/
structure CalcEntry where
  service : String
  name : String
  description : String
  tags : String
  quantity : Option Int
  costComponents : List CostComponent
deriving DecidableEq, Repr

/-- The full calculator payload: the `estimate` dictionary's `resources`
list (its `totalCost`, `currency` and `timeframe` fields are constants). -/
structure CalculatorData where
  resources : List CalcEntry
deriving DecidableEq, Repr

/-- `json.dumps` of one cost-component dictionary, keys in insertion order. -/
def dumpsCostComponent : CostComponent → String
  | .ec2Instance mq family it region =>
    "\x7b\"name\": \"EC2 Instance\", \"unit\": \"hours\", \"hourlyQuantity\": 1, " ++
    "\"monthlyQuantity\": " ++ pyFloatRepr mq ++ ", \"price\": 0, " ++
    "\"service\": \"AmazonEC2\", \"family\": " ++ jsonStr family ++
    ", \"instanceType\": " ++ jsonStr it ++ ", \"region\": " ++ jsonStr region ++
    ", \"operatingSystem\": \"Linux\", \"type\": \"EC2\"\x7d"
  | .rdsInstance mq family it engine region =>
    "\x7b\"name\": \"Database Instance\", \"unit\": \"hours\", \"hourlyQuantity\": 1, " ++
    "\"monthlyQuantity\": " ++ pyFloatRepr mq ++ ", \"price\": 0, " ++
    "\"service\": \"AmazonRDS\", \"family\": " ++ jsonStr family ++
    ", \"instanceType\": " ++ jsonStr it ++ ", \"databaseEngine\": " ++ jsonStr engine ++
    ", \"deploymentOption\": \"Single-AZ\", \"region\": " ++ jsonStr region ++
    ", \"type\": \"RDS\"\x7d"
  | .rdsStorage mq region =>
    "\x7b\"name\": \"Storage\", \"unit\": \"GB\", \"hourlyQuantity\": null, " ++
    "\"monthlyQuantity\": " ++ mq.pyStr ++ ", \"price\": 0, " ++
    "\"service\": \"AmazonRDS\", \"storageType\": \"General Purpose\", " ++
    "\"region\": " ++ jsonStr region ++ ", \"type\": \"RDS-Storage\"\x7d"
  | .s3Storage mq sc region =>
    "\x7b\"name\": \"Storage\", \"unit\": \"GB\", \"hourlyQuantity\": null, " ++
    "\"monthlyQuantity\": " ++ mq.pyStr ++ ", \"price\": 0, " ++
    "\"service\": \"AmazonS3\", \"storageClass\": " ++ jsonStr sc ++
    ", \"region\": " ++ jsonStr region ++ ", \"type\": \"S3-Storage\"\x7d"

/-- `json.dumps` of one per-resource dictionary. -/
def dumpsCalcEntry (e : CalcEntry) : String :=
  "\x7b\"service\": " ++ jsonStr e.service ++ ", \"name\": " ++ jsonStr e.name ++
  ", \"description\": " ++ jsonStr e.description ++ ", \"tags\": " ++ jsonStr e.tags ++
  (match e.quantity with
   | some n => ", \"quantity\": " ++ toString n
   | none => "") ++
  ", \"costComponents\": [" ++
  String.intercalate ", " (e.costComponents.map dumpsCostComponent) ++ "]\x7d"

/-- `json.dumps(calculator_data)`: the full payload JSON text. -/
def dumpsCalculatorData (d : CalculatorData) : String :=
  "\x7b\"estimate\": \x7b\"resources\": [" ++
  String.intercalate ", " (d.resources.map dumpsCalcEntry) ++
  "], \"totalCost\": 0, \"currency\": \"USD\", \"timeframe\": \"monthly\"\x7d\x7d"

/-- `AWSWebCalculator._convert_ec2_to_calculator_format`. -/
def convert_ec2_to_calculator_format (r : ResourceConfig) : CalcEntry :=
  let instance_type := (r.specs.instance_type).getD "t3.medium"
  let instance_info := (EC2_TYPE_MAP.lookup instance_type).getD ("t3", "t3.medium")
  { service := "AmazonEC2"
    name := r.resource_type ++ " (" ++ instance_type ++ ")"
    description := r.resource_type ++ " - " ++ toString r.quantity ++ " x " ++ instance_type
    tags := r.resource_type
    quantity := some r.quantity
    costComponents := [.ec2Instance r.usage_hours instance_info.1 instance_info.2 r.region] }

/-- `AWSWebCalculator._convert_rds_to_calculator_format`. -/
def convert_rds_to_calculator_format (r : ResourceConfig) : CalcEntry :=
  let instance_type := (r.specs.instance_type).getD "db.t3.medium"
  let instance_info := (RDS_TYPE_MAP.lookup instance_type).getD ("db.t3", "db.t3.medium")
  let engine := (r.specs.engine).getD "mysql"
  let engine_name := (RDS_ENGINE_MAP.lookup engine.toLower).getD "MySQL"
  let storage_gb := (r.specs.storage_gb).getD (.int 100)
  { service := "AmazonRDS"
    name := r.resource_type ++ " (" ++ instance_type ++ " - " ++ engine_name ++ ")"
    description := r.resource_type ++ " - " ++ toString r.quantity ++ " x " ++ instance_type ++
      " " ++ engine_name ++ " DB with " ++ storage_gb.pyStr ++ "GB storage"
    tags := r.resource_type
    quantity := some r.quantity
    costComponents :=
      [.rdsInstance r.usage_hours instance_info.1 instance_info.2 engine_name r.region,
       .rdsStorage storage_gb r.region] }

/-- `AWSWebCalculator._convert_s3_to_calculator_format`. -/
def convert_s3_to_calculator_format (r : ResourceConfig) : CalcEntry :=
  let storage_class := (r.specs.storage_class).getD "Standard"
  let aws_storage_class := (S3_STORAGE_CLASS_MAP.lookup storage_class).getD "General Purpose"
  let storage_gb := (r.specs.storage_gb).getD (.int 100)
  { service := "AmazonS3"
    name := r.resource_type ++ " (" ++ storage_class ++ ")"
    description := r.resource_type ++ " - " ++ storage_gb.pyStr ++ "GB " ++
      storage_class ++ " storage"
    tags := r.resource_type
    quantity := none
    costComponents := [.s3Storage storage_gb aws_storage_class r.region] }

/-- `AWSWebCalculator.convert_resource_to_calculator_format`: `None` for any
service other than `ec2`, `rds`, `s3`. -/
def convert_resource_to_calculator_format (r : ResourceConfig) : Option CalcEntry :=
  if r.service = "ec2" then some (convert_ec2_to_calculator_format r)
  else if r.service = "rds" then some (convert_rds_to_calculator_format r)
  else if r.service = "s3" then some (convert_s3_to_calculator_format r)
  else none

/-- The accumulation loop of `convert_resources_to_calculator_format`:
converted entries in input order, unconvertible resources skipped. -/
def collectCalculatorResources : List ResourceConfig → List CalcEntry
  | [] => []
  | r :: rs =>
    match convert_resource_to_calculator_format r with
    | some e => e :: collectCalculatorResources rs
    | none => collectCalculatorResources rs

/-- `AWSWebCalculator.convert_resources_to_calculator_format`. -/
def convert_resources_to_calculator_format (resources : List ResourceConfig) :
    CalculatorData :=
  { resources := collectCalculatorResources resources }

/-- `AWSWebCalculator._encode_calculator_data`: JSON-dump, base64-encode,
URL-encode, in that order. -/
def encode_calculator_data (d : CalculatorData) : String :=
  urlQuote (b64encode (utf8Bytes (dumpsCalculatorData d)))

/-- `AWSWebCalculator.generate_calculator_url`. -/
def generate_calculator_url (resources : List ResourceConfig) : String :=
  CALCULATOR_BASE_URL ++ "?data=" ++
    encode_calculator_data (convert_resources_to_calculator_format resources)

/-! ## `service.py`: `PricingService.load_resources_from_config` -/

/-- One entry of the YAML configuration's `resources` list: `service`,
`type` and `specs` are mandatory keys, the rest are optional. -/
structure RawResource where
  service : String
  type : String
  specs : Specs
  region : Option String := none
  quantity : Option Int := none
  usage_hours : Option ℚ := none
deriving DecidableEq, Repr

/-- A parsed YAML configuration: its `resources` key, if present. -/
structure RawConfig where
  resources : Option (List RawResource) := none
deriving DecidableEq, Repr

/-- `PricingService.load_resources_from_config`: one `ResourceConfig` per
entry, in order, defaulting `region` to the service's default region,
`quantity` to `1` and `usage_hours` to `730.0`. -/
def load_resources_from_config (default_region : String) (config : RawConfig) :
    List ResourceConfig :=
  ((config.resources).getD []).map fun r =>
    { service := r.service
      resource_type := r.type
      specs := r.specs
      region := (r.region).getD default_region
      quantity := (r.quantity).getD 1
      usage_hours := (r.usage_hours).getD 730.0 }

/-! ## Browser-automation models

`browser_calculator.py` (pyppeteer) and `selenium_calculator.py` (Selenium)
drive a real browser.  They are modelled as deterministic functions of an
environment record describing the outcome of every external operation
(launch, navigation, element waits, screenshots, extraction); each model
returns the trace of externally visible effects together with the value the
method produces (a success dictionary, an error dictionary, or a propagated
exception). -/

/-- Python `str.replace(old, new)` on strings (all occurrences, left to
right), via character lists with a fuel bound of the string length. -/
def charsReplace : Nat → List Char → List Char → List Char → List Char
  | 0, s, _, _ => s
  | _ + 1, [], _, _ => []
  | fuel + 1, c :: rest, old, new =>
    if List.isPrefixOf old (c :: rest) then
      new ++ charsReplace fuel ((c :: rest).drop old.length) old new
    else
      c :: charsReplace fuel rest old new

/-- Python `str.replace(old, new)` for non-empty `old`. -/
def strReplace (s old new : String) : String :=
  String.mk (charsReplace s.toList.length s.toList old.toList new.toList)

/-- `os.path.dirname`, simplified to relative paths: the part before the
last `/`, empty if there is none. -/
def dirName (p : String) : String :=
  match p.toList.reverse.dropWhile (fun c => c ≠ '/') with
  | [] => ""
  | _ :: rest => String.mk rest.reverse

/-- An externally visible effect of a browser-calculator run. -/
inductive BrowserEffect where
  | launch
  | newPage
  | goto (url : String)
  | waitSelector (selector : String)
  | pageDump
  | screenshot (path : String)
  | addService (service : String)
  | llmAddService (service : String)
  | extract
  | close
deriving DecidableEq, Repr

/-- The scraped pricing data of a successful run. -/
structure ScrapedData where
  total_monthly_cost : ℚ
  raw_total : String
  services : List (String × ℚ)
deriving DecidableEq, Repr

/-- What a browser `get_price_estimate` call produces: the success
dictionary (`status: success`), the error dictionary (`status: error`), or
an exception propagated to the caller. -/
inductive BrowserResult where
  | success (data : ScrapedData) (calculator_url : String)
  | error (message : String) (calculator_url : String)
  | exn (message : String)
deriving DecidableEq, Repr

/-- Outcome of the `try` block of a `get_price_estimate` body: normal
completion or a raised exception, with the trace of effects so far. -/
inductive TryOutcome where
  | ok (trace : List BrowserEffect) (data : ScrapedData)
  | raised (trace : List BrowserEffect) (message : String)
deriving DecidableEq, Repr

/-- Constructor arguments of `AWSBrowserCalculator` (pyppeteer). -/
structure PptrConfig where
  headless : Bool := true
  debug : Bool := false
deriving DecidableEq, Repr

/-- Outcomes of the external operations of one pyppeteer
`get_price_estimate` run.  A `false` flag means the operation raises (or,
for element waits, times out). -/
structure PptrEnv where
  launchOk : Bool := true
  newPageOk : Bool := true
  gotoOk : Bool := true
  headerFound : Bool := true
  gotoBaseOk : Bool := true
  headerFoundAtBase : Bool := true
  loadingFound : Bool := true
  screenshotOk : Bool := true
  evalOk : Bool := true
  totalMonthly : ℚ := 0
  rawTotal : String := ""
  services : List (String × ℚ) := []
deriving DecidableEq, Repr

/-- Effects of `AWSBrowserCalculator._debug_page_structure` as invoked from
`get_price_estimate`: a page dump (HTML + structure) and a debug screenshot,
written only when the `debug` flag is set and an output directory is
available (the call-site guard also fires on `debug_dir` alone, but the
helper returns immediately unless `debug` is set). -/
def pptrDebugEffects (cfg : PptrConfig) (screenshotPath debugDir : Option String) :
    List BrowserEffect :=
  if cfg.debug ∨ debugDir.isSome then
    if cfg.debug then
      let out := match debugDir with
        | some d => d
        | none => dirName (screenshotPath.getD ".")
      if out ≠ "" then [.pageDump, .screenshot (out ++ "/page_screenshot.png")] else []
    else []
  else []

/-- The screenshot effect performed when a screenshot path is given. -/
def shotList : Option String → List BrowserEffect
  | some p => [.screenshot p]
  | none => []

/-- The tail of the pyppeteer `try` block once the page is considered
loaded: wait for the price display, screenshot (which raises on failure),
and extract the pricing data via `page.evaluate` (which raises on failure
and reports a zero total when the total-price element is absent). -/
def pptrAfterHeader (env : PptrEnv) (screenshotPath : Option String)
    (tr : List BrowserEffect) : TryOutcome :=
  let tr2 := tr ++ [BrowserEffect.waitSelector "loading_finished"] ++ shotList screenshotPath
  if screenshotPath.isSome && !env.screenshotOk then .raised tr2 "Screenshot failed"
  else if !env.evalOk then .raised (tr2 ++ [.extract]) "Evaluation failed"
  else
    .ok (tr2 ++ [.extract])
      (if env.loadingFound then ⟨env.totalMonthly, env.rawTotal, env.services⟩
       else ⟨0, "No total found", env.services⟩)

/-- The `try` block of `AWSBrowserCalculator.get_price_estimate`: navigate
to the generated URL, dump debug info, wait for the header (falling back to
the base calculator URL plus manual service addition when it is absent),
then finish via `pptrAfterHeader`.  Element waits time out without raising;
navigation and the explicit page-load check can raise. -/
def pptrTryBody (cfg : PptrConfig) (env : PptrEnv) (resources : List ResourceConfig)
    (screenshotPath debugDir : Option String) : TryOutcome :=
  let url := generate_calculator_url resources
  if !env.gotoOk then .raised [.goto url] "Navigation failed" else
  let t2 := [BrowserEffect.goto url] ++ pptrDebugEffects cfg screenshotPath debugDir ++
    [BrowserEffect.waitSelector "header"]
  if env.headerFound then pptrAfterHeader env screenshotPath t2
  else if !env.gotoBaseOk then
    .raised (t2 ++ [BrowserEffect.goto CALCULATOR_BASE_URL]) "Navigation failed"
  else
    let t3 := t2 ++ [BrowserEffect.goto CALCULATOR_BASE_URL, BrowserEffect.waitSelector "header"]
    if !env.headerFoundAtBase then
      .raised t3 "AWS Calculator page failed to load properly"
    else
      pptrAfterHeader env screenshotPath
        (t3 ++ resources.map (fun r => BrowserEffect.addService r.service))

/-- The error-screenshot attempt of an exception handler: the screenshot
path with `.png` replaced by `_error.png`. -/
def errShotList : Option String → List BrowserEffect
  | some p => [.screenshot (strReplace p ".png" "_error.png")]
  | none => []

/-- `AWSBrowserCalculator.get_price_estimate` (pyppeteer): launch a browser
and open a page (both outside the `try`, so their failures propagate), run
the body, convert any exception of the body into an error dictionary after
attempting an error screenshot, and close the browser in the `finally`. -/
def pptr_get_price_estimate (cfg : PptrConfig) (env : PptrEnv)
    (resources : List ResourceConfig) (screenshotPath debugDir : Option String) :
    List BrowserEffect × BrowserResult :=
  let url := generate_calculator_url resources
  if !env.launchOk then ([.launch], .exn "Browser launch failed")
  else if !env.newPageOk then ([.launch, .newPage], .exn "newPage failed")
  else
    match pptrTryBody cfg env resources screenshotPath debugDir with
    | .ok tr data =>
      ([BrowserEffect.launch, BrowserEffect.newPage] ++ tr ++ [BrowserEffect.close],
       .success data url)
    | .raised tr msg =>
      ([BrowserEffect.launch, BrowserEffect.newPage] ++ tr ++ errShotList screenshotPath ++
         [BrowserEffect.close],
       .error ("Error accessing AWS Calculator: " ++ msg) url)

/-- Constructor arguments of `AWSSeleniumCalculator`. -/
structure SelConfig where
  headless : Bool := true
  debug : Bool := false
deriving DecidableEq, Repr

/-- Outcomes of the external operations of one Selenium
`get_price_estimate` run. -/
structure SelEnv where
  setupOk : Bool := true
  gotoOk : Bool := true
  totalFound : Bool := true
  addOk : Bool := true
  screenshotOk : Bool := true
  extractOk : Bool := true
  totalMonthly : ℚ := 0
  rawTotal : String := ""
  services : List (String × ℚ) := []
deriving DecidableEq, Repr

/-- Effects of `AWSSeleniumCalculator._debug_page` as invoked from
`get_price_estimate`: a debug screenshot and a page dump inside the debug
subdirectory, only when a debug directory is given and debug is enabled. -/
def selDebugEffects (cfg : SelConfig) (debugDir : Option String) : List BrowserEffect :=
  match debugDir with
  | some d =>
    if cfg.debug then
      [.screenshot (d ++ "/debug/debug_screenshot.png"), .pageDump]
    else []
  | none => []

/-- The error screenshot taken when one LLM-guided service addition fails
and a screenshot path was provided. -/
def selFailShot (env : SelEnv) (screenshotPath : Option String) (service : String) :
    List BrowserEffect :=
  if !env.addOk then
    match screenshotPath with
    | some p => [.screenshot (strReplace p ".png" ("_" ++ service ++ "_error.png"))]
    | none => []
  else []

/-- The LLM-guided fallback loop of the Selenium `get_price_estimate`: one
LLM-guided addition per resource in list order (the helper catches its own
exceptions and returns a boolean), with a per-resource error screenshot when
the addition fails and a screenshot path was provided. -/
def selLlmAddEffects (env : SelEnv) (screenshotPath : Option String)
    (resources : List ResourceConfig) : List BrowserEffect :=
  resources.flatMap fun r =>
    [BrowserEffect.llmAddService r.service] ++ selFailShot env screenshotPath r.service

/-- The `try` block of `AWSSeleniumCalculator.get_price_estimate`: navigate
to the generated URL, dump debug info when a debug directory is given and
debug is enabled, wait (5s) for the total-price element, on timeout add each
resource through the LLM-guided flow, screenshot, and extract pricing data
(the extractor catches its own errors and degrades to a zero total). -/
def selTryBody (cfg : SelConfig) (env : SelEnv) (resources : List ResourceConfig)
    (screenshotPath debugDir : Option String) : TryOutcome :=
  let url := generate_calculator_url resources
  if !env.gotoOk then .raised [.goto url] "Navigation failed" else
  let t2 := [BrowserEffect.goto url] ++ selDebugEffects cfg debugDir ++
    [BrowserEffect.waitSelector "total_price"]
  let t3 := if env.totalFound then t2 else t2 ++ selLlmAddEffects env screenshotPath resources
  let t4 := t3 ++ shotList screenshotPath
  if screenshotPath.isSome && !env.screenshotOk then .raised t4 "Screenshot failed"
  else
    let data : ScrapedData :=
      if env.extractOk then ⟨env.totalMonthly, env.rawTotal, env.services⟩
      else ⟨0, "Error extracting data", []⟩
    .ok (t4 ++ [.extract]) data

/-- `AWSSeleniumCalculator.get_price_estimate`: set up the driver (outside
the `try`, so its failure propagates), run the body, convert any exception
into an error dictionary after attempting an error screenshot, and quit the
driver in the `finally` — but only when `debug` is disabled. -/
def selenium_get_price_estimate (cfg : SelConfig) (env : SelEnv)
    (resources : List ResourceConfig) (screenshotPath debugDir : Option String) :
    List BrowserEffect × BrowserResult :=
  let url := generate_calculator_url resources
  if !env.setupOk then ([.launch], .exn "WebDriver setup failed")
  else
    let closeTr : List BrowserEffect := if cfg.debug then [] else [.close]
    match selTryBody cfg env resources screenshotPath debugDir with
    | .ok tr data => ([BrowserEffect.launch] ++ tr ++ closeTr, .success data url)
    | .raised tr msg =>
      ([BrowserEffect.launch] ++ tr ++ errShotList screenshotPath ++ closeTr,
       .error ("Error accessing AWS Calculator: " ++ msg) url)

/-- The effect trace of a `try`-block outcome. -/
def TryOutcome.trace : TryOutcome → List BrowserEffect
  | .ok tr _ => tr
  | .raised tr _ => tr

/-- Whether an effect is an entry into the manual add-service flow (plain
or LLM-guided). -/
def isAddEffect : BrowserEffect → Bool
  | .addService _ => true
  | .llmAddService _ => true
  | _ => false

/-- Effects that can occur inside a `get_price_estimate` `try` block:
everything except browser lifecycle events. -/
def isInternalEffect : BrowserEffect → Bool
  | .launch => false
  | .newPage => false
  | .close => false
  | _ => true

/-- The conditions under which the `try` block of the pyppeteer
`get_price_estimate` raises: navigation fails, the page fails to load even
from the base URL, the screenshot fails, or the extraction fails. -/
def pptrTryRaises (env : PptrEnv) (screenshotPath : Option String) : Bool :=
  !env.gotoOk ||
    (!env.headerFound && (!env.gotoBaseOk || !env.headerFoundAtBase)) ||
    (screenshotPath.isSome && !env.screenshotOk) || !env.evalOk

/-- The conditions under which the `try` block of the Selenium
`get_price_estimate` raises: navigation fails or the screenshot fails (the
LLM fallback and the extractor swallow their own errors). -/
def selTryRaises (env : SelEnv) (screenshotPath : Option String) : Bool :=
  !env.gotoOk || (screenshotPath.isSome && !env.screenshotOk)

/-! ## Predicates and sample data used by the claim statements -/

/-- A resource configuration with non-negative quantity, usage hours and
storage size (a YAML configuration in the intended domain). -/
def ResourceConfig.wellFormed (r : ResourceConfig) : Prop :=
  0 ≤ r.quantity ∧ 0 ≤ r.usage_hours ∧
    ∀ n, r.specs.storage_gb = some n → 0 ≤ n.toRat

/-- A pricing-API outcome that never reports a negative price. -/
def ApiOutcome.nonneg : ApiOutcome → Prop
  | .raises => True
  | .returns l => ∀ q, extract_price l = some q → 0 ≤ q

/-- The API call raises or yields no USD price. -/
def ApiOutcome.failed : ApiOutcome → Prop
  | .raises => True
  | .returns l => extract_price l = none

/-- The `specs` keys that `calculate_resource_cost` reads with a mandatory
`[...]` access are present: `instance_type` for EC2, `instance_type` and
`engine` for RDS (the remaining services only use `.get` with defaults). -/
def requiredSpecsPresent (r : ResourceConfig) : Prop :=
  (r.service = "ec2" → (r.specs.instance_type).isSome) ∧
  (r.service = "rds" → (r.specs.instance_type).isSome ∧ (r.specs.engine).isSome)

/-- Sample resource: an SQS queue (priced locally, unsupported by the URL
converter). -/
def sampleSqs : ResourceConfig :=
  { service := "sqs", resource_type := "Queue", specs := {}, region := "us-east-1" }

/-- Sample resource: a WAF web ACL. -/
def sampleWaf : ResourceConfig :=
  { service := "waf", resource_type := "Firewall", specs := {}, region := "us-east-1" }

/-- Sample resource: two EC2 `t3.micro` instances. -/
def sampleEc2 : ResourceConfig :=
  { service := "ec2", resource_type := "Web Server",
    specs := { instance_type := some "t3.micro" }, region := "us-east-1",
    quantity := 2, usage_hours := 730 }

/-! ## Lemma layer: price calculator -/

theorem lookup_getD_nonneg (s : String) (d : ℚ) (l : List (String × ℚ))
    (hl : ∀ p ∈ l, 0 ≤ p.2) (hd : 0 ≤ d) : 0 ≤ ((l.lookup s).getD d) := by
  induction l with
  | nil => simpa using hd
  | cons p tl ih =>
    obtain ⟨k, v⟩ := p
    by_cases h : s = k
    · have hb : (s == k) = true := beq_iff_eq.mpr h
      simpa [List.lookup, hb] using hl ⟨k, v⟩ (by simp)
    · have hb : (s == k) = false := beq_eq_false_iff_ne.mpr h
      simpa [List.lookup, hb] using ih (fun q hq => hl q (by simp [hq]))

theorem fallback_ec2_nonneg : ∀ p ∈ FALLBACK_PRICES_ec2, 0 ≤ p.2 := by
  intro p hp
  fin_cases hp <;> norm_num

theorem fallback_rds_nonneg : ∀ p ∈ FALLBACK_PRICES_rds, 0 ≤ p.2 := by
  intro p hp
  fin_cases hp <;> norm_num

theorem fallback_s3_nonneg : ∀ p ∈ FALLBACK_PRICES_s3, 0 ≤ p.2 := by
  intro p hp
  fin_cases hp <;> norm_num

theorem get_ec2_price_nonneg (api : ApiOutcome) (it reg : String) (h : api.nonneg) :
    0 ≤ get_ec2_price api it reg := by
  cases api with
  | raises =>
    exact lookup_getD_nonneg it _ _ fallback_ec2_nonneg (by norm_num)
  | returns l =>
    cases hq : extract_price l with
    | none =>
      simp only [get_ec2_price, hq]
      exact lookup_getD_nonneg it _ _ fallback_ec2_nonneg (by norm_num)
    | some q =>
      simp only [get_ec2_price, hq]
      exact h q hq

theorem get_rds_price_nonneg (api : ApiOutcome) (it eng reg : String) (h : api.nonneg) :
    0 ≤ get_rds_price api it eng reg := by
  unfold get_rds_price
  by_cases hs : it = "storage"
  · simp only [hs, if_pos rfl]
    exact lookup_getD_nonneg _ _ _ fallback_rds_nonneg (by norm_num)
  · simp only [if_neg hs]
    cases api with
    | raises => exact lookup_getD_nonneg it _ _ fallback_rds_nonneg (by norm_num)
    | returns l =>
      cases hq : extract_price l with
      | none =>
        simp only [hq]
        exact lookup_getD_nonneg it _ _ fallback_rds_nonneg (by norm_num)
      | some q =>
        simp only [hq]
        exact h q hq

theorem get_s3_price_nonneg (api : ApiOutcome) (sc reg : String) (h : api.nonneg) :
    0 ≤ get_s3_price api sc reg := by
  cases api with
  | raises => exact lookup_getD_nonneg sc _ _ fallback_s3_nonneg (by norm_num)
  | returns l =>
    cases hq : extract_price l with
    | none =>
      simp only [get_s3_price, hq]
      exact lookup_getD_nonneg sc _ _ fallback_s3_nonneg (by norm_num)
    | some q =>
      simp only [get_s3_price, hq]
      exact h q hq

theorem storage_gb_nonneg (r : ResourceConfig)
    (hsg : ∀ n, r.specs.storage_gb = some n → 0 ≤ n.toRat) :
    0 ≤ ((r.specs.storage_gb).getD (.int 0)).toRat := by
  cases hv : r.specs.storage_gb with
  | none => simp [PyNum.toRat]
  | some n => simpa using hsg n hv

theorem calculate_resource_cost_nonneg (api : ApiOutcome) (r : ResourceConfig)
    (res : PricingResult) (hapi : api.nonneg) (hr : r.wellFormed)
    (h : calculate_resource_cost api r = .ok res) : 0 ≤ res.monthly_cost := by
  obtain ⟨hq, hh, hsg⟩ := hr
  have hq' : (0 : ℚ) ≤ (r.quantity : ℚ) := by exact_mod_cast hq
  unfold calculate_resource_cost at h
  split_ifs at h with h1 h2 h3 h4 h5 h6
  · cases hit : r.specs.instance_type with
    | none => rw [hit] at h; cases h
    | some it =>
      rw [hit] at h
      obtain rfl := (Except.ok.injEq _ _).mp h.symm
      exact mul_nonneg (mul_nonneg (get_ec2_price_nonneg api it r.region hapi) hq') hh
  · cases hit : r.specs.instance_type with
    | none => rw [hit] at h; cases h
    | some it =>
      cases heng : r.specs.engine with
      | none => rw [hit, heng] at h; cases h
      | some eng =>
        rw [hit, heng] at h
        obtain rfl := (Except.ok.injEq _ _).mp h.symm
        refine add_nonneg ?_ ?_
        · exact mul_nonneg
            (mul_nonneg (get_rds_price_nonneg api it eng r.region hapi) hq') hh
        · exact mul_nonneg (get_rds_price_nonneg api "storage" eng r.region hapi)
            (storage_gb_nonneg r hsg)
  · obtain rfl := (Except.ok.injEq _ _).mp h.symm
    exact mul_nonneg
      (get_s3_price_nonneg api ((r.specs.storage_class).getD "Standard") r.region hapi)
      (storage_gb_nonneg r hsg)
  · obtain rfl := (Except.ok.injEq _ _).mp h.symm
    norm_num
  · obtain rfl := (Except.ok.injEq _ _).mp h.symm
    norm_num
  · obtain rfl := (Except.ok.injEq _ _).mp h.symm
    norm_num

theorem calcResults_mem_nonneg (api : ResourceConfig → ApiOutcome)
    (rs : List ResourceConfig) (results : List PricingResult)
    (h : ∀ r ∈ rs, (api r).nonneg ∧ r.wellFormed)
    (he : calcResults api rs = .ok results) :
    ∀ res ∈ results, 0 ≤ res.monthly_cost := by
  induction rs generalizing results with
  | nil =>
    unfold calcResults at he
    obtain rfl := (Except.ok.injEq _ _).mp he.symm
    simp
  | cons r rs ih =>
    unfold calcResults at he
    cases h1 : calculate_resource_cost (api r) r with
    | error e => rw [h1] at he; cases he
    | ok res0 =>
      rw [h1] at he
      cases h2 : calcResults api rs with
      | error e => rw [h2] at he; cases he
      | ok rest =>
        rw [h2] at he
        obtain rfl := (Except.ok.injEq _ _).mp he.symm
        intro res hres
        rcases List.mem_cons.mp hres with rfl | hmem
        · exact calculate_resource_cost_nonneg (api r) r res (h r (by simp)).1
            (h r (by simp)).2 h1
        · exact ih rest (fun x hx => h x (by simp [hx])) h2 res hmem

theorem calculate_total_cost_nonneg (api : ResourceConfig → ApiOutcome)
    (rs : List ResourceConfig) (out : TotalCost)
    (h : ∀ r ∈ rs, (api r).nonneg ∧ r.wellFormed)
    (he : calculate_total_cost api rs = .ok out) : 0 ≤ out.total_monthly_cost := by
  unfold calculate_total_cost at he
  cases h1 : calcResults api rs with
  | error e => rw [h1] at he; cases he
  | ok results =>
    rw [h1] at he
    obtain rfl := (Except.ok.injEq _ _).mp he.symm
    refine List.sum_nonneg ?_
    intro x hx
    obtain ⟨res, hres, rfl⟩ := List.mem_map.mp hx
    exact calcResults_mem_nonneg api rs results h h1 res hres

theorem calcResults_spec (api : ResourceConfig → ApiOutcome)
    (rs : List ResourceConfig) (results : List PricingResult)
    (he : calcResults api rs = .ok results) :
    results.length = rs.length ∧
      ∀ i (hi : i < rs.length) (hj : i < results.length),
        calculate_resource_cost (api (rs.get ⟨i, hi⟩)) (rs.get ⟨i, hi⟩) =
          .ok (results.get ⟨i, hj⟩) := by
  induction rs generalizing results with
  | nil =>
    unfold calcResults at he
    obtain rfl := (Except.ok.injEq _ _).mp he.symm
    exact ⟨rfl, fun i hi => absurd hi (by simp)⟩
  | cons r rs ih =>
    unfold calcResults at he
    cases h1 : calculate_resource_cost (api r) r with
    | error e => rw [h1] at he; cases he
    | ok res0 =>
      rw [h1] at he
      cases h2 : calcResults api rs with
      | error e => rw [h2] at he; cases he
      | ok rest =>
        rw [h2] at he
        obtain rfl := (Except.ok.injEq _ _).mp he.symm
        obtain ⟨hlen, hpt⟩ := ih rest h2
        refine ⟨by simpa using hlen, ?_⟩
        intro i hi hj
        cases i with
        | zero => simpa using h1
        | succ n =>
          simpa using hpt n (by simpa using hi) (by simpa using hj)

/-- A fallible computation that never returns an error returns a value. -/
theorem exists_ok_of_forall_ne_error {α β : Type} (e : Except α β)
    (h : ∀ a, e ≠ .error a) : ∃ b, e = .ok b := by
  cases e with
  | error a => exact absurd rfl (h a)
  | ok b => exact ⟨b, rfl⟩

/-- The six services priced by `calculate_resource_cost`. -/
theorem supported_services_spec (api : ApiOutcome) (r : ResourceConfig) :
    (r.service ∉ (["ec2", "rds", "s3", "sqs", "cloudwatch", "waf"] : List String) →
      calculate_resource_cost api r =
        .error (.valueError ("Unsupported service: " ++ r.service))) ∧
    (r.service ∈ (["ec2", "rds", "s3", "sqs", "cloudwatch", "waf"] : List String) →
      ∀ msg, calculate_resource_cost api r ≠ .error (.valueError msg)) ∧
    (r.service ∈ (["ec2", "rds", "s3", "sqs", "cloudwatch", "waf"] : List String) →
      requiredSpecsPresent r → ∃ res, calculate_resource_cost api r = .ok res) := by
  refine ⟨?_, ?_, ?_⟩
  · intro hn
    have e1 : ¬ r.service = "ec2" := fun h => hn (by simp [h])
    have e2 : ¬ r.service = "rds" := fun h => hn (by simp [h])
    have e3 : ¬ r.service = "s3" := fun h => hn (by simp [h])
    have e4 : ¬ r.service = "sqs" := fun h => hn (by simp [h])
    have e5 : ¬ r.service = "cloudwatch" := fun h => hn (by simp [h])
    have e6 : ¬ r.service = "waf" := fun h => hn (by simp [h])
    simp [calculate_resource_cost, e1, e2, e3, e4, e5, e6]
  · intro hm msg
    simp only [List.mem_cons, List.mem_singleton, List.not_mem_nil, or_false] at hm
    rcases hm with h | h | h | h | h | h
    · cases hit : r.specs.instance_type <;> simp [calculate_resource_cost, h, hit]
    · cases hit : r.specs.instance_type with
      | none => simp [calculate_resource_cost, h, hit]
      | some it => cases heng : r.specs.engine <;> simp [calculate_resource_cost, h, hit, heng]
    · simp [calculate_resource_cost, h]
    · simp [calculate_resource_cost, h]
    · simp [calculate_resource_cost, h]
    · simp [calculate_resource_cost, h]
  · intro hm hreq
    simp only [List.mem_cons, List.mem_singleton, List.not_mem_nil, or_false] at hm
    obtain ⟨hq1, hq2⟩ := hreq
    refine exists_ok_of_forall_ne_error _ ?_
    intro a
    rcases hm with h | h | h | h | h | h
    · obtain ⟨it, hit⟩ := Option.isSome_iff_exists.mp (hq1 h)
      simp [calculate_resource_cost, h, hit]
    · obtain ⟨⟨it, hit⟩, ⟨eng, heng⟩⟩ :=
        And.imp Option.isSome_iff_exists.mp Option.isSome_iff_exists.mp (hq2 h)
      simp [calculate_resource_cost, h, hit, heng]
    · simp [calculate_resource_cost, h]
    · simp [calculate_resource_cost, h]
    · simp [calculate_resource_cost, h]
    · simp [calculate_resource_cost, h]

/-- The collection loop of `convert_resources_to_calculator_format` is the
`filterMap` of the single-resource conversion. -/
theorem collectCalculatorResources_eq_filterMap (rs : List ResourceConfig) :
    collectCalculatorResources rs = rs.filterMap convert_resource_to_calculator_format := by
  induction rs with
  | nil => rfl
  | cons r rs ih =>
    unfold collectCalculatorResources
    cases h : convert_resource_to_calculator_format r <;>
      simp [List.filterMap_cons, h, ih]

/-- Resources outside `ec2`/`rds`/`s3` are not representable in the
calculator payload. -/
theorem convert_unsupported_none (r : ResourceConfig)
    (hn : r.service ∉ (["ec2", "rds", "s3"] : List String)) :
    convert_resource_to_calculator_format r = none := by
  have e1 : ¬ r.service = "ec2" := fun h => hn (by simp [h])
  have e2 : ¬ r.service = "rds" := fun h => hn (by simp [h])
  have e3 : ¬ r.service = "s3" := fun h => hn (by simp [h])
  simp [convert_resource_to_calculator_format, e1, e2, e3]

/-! ## Lemma layer: browser models -/

theorem pptrDebugEffects_mem (cfg : PptrConfig) (p d : Option String) (e : BrowserEffect)
    (he : e ∈ pptrDebugEffects cfg p d) :
    isInternalEffect e = true ∧ isAddEffect e = false ∧
      (cfg.debug = false → e ≠ BrowserEffect.pageDump) := by
  cases hd : cfg.debug
  · unfold pptrDebugEffects at he
    rw [hd] at he
    simp at he
  · unfold pptrDebugEffects at he
    rw [hd] at he
    simp at he
    rcases he with ⟨-, rfl | rfl⟩
    · exact ⟨rfl, rfl, fun hf => by cases hf⟩
    · exact ⟨rfl, rfl, fun hf => by simp⟩

theorem wait_shot_extract_mem (p : Option String) (e : BrowserEffect)
    (he : e ∈ [BrowserEffect.waitSelector "loading_finished"] ++ shotList p ++
      [BrowserEffect.extract]) :
    isInternalEffect e = true ∧ isAddEffect e = false ∧ e ≠ BrowserEffect.pageDump := by
  rcases List.mem_append.mp he with h | h
  · rcases List.mem_append.mp h with h2 | h2
    · simp at h2
      subst h2
      exact ⟨rfl, rfl, by simp⟩
    · cases p with
      | none => simp [shotList] at h2
      | some pp =>
        simp [shotList] at h2
        subst h2
        exact ⟨rfl, rfl, by simp⟩
  · simp at h
    subst h
    exact ⟨rfl, rfl, by simp⟩

/-- The tail phase only appends waits, screenshots and the extraction to the
trace it is given. -/
theorem pptrAfterHeader_trace (env : PptrEnv) (p : Option String) (tr : List BrowserEffect) :
    ∃ rest, (pptrAfterHeader env p tr).trace = tr ++ rest ∧
      ∀ e ∈ rest, isInternalEffect e = true ∧ isAddEffect e = false ∧
        e ≠ BrowserEffect.pageDump := by
  unfold pptrAfterHeader
  by_cases h1 : p.isSome && !env.screenshotOk
  · refine ⟨[BrowserEffect.waitSelector "loading_finished"] ++ shotList p, ?_, ?_⟩
    · simp [TryOutcome.trace, h1]
    · intro e he
      exact wait_shot_extract_mem p e (List.mem_append.mpr (.inl he))
  · by_cases h2 : env.evalOk
    · refine ⟨[BrowserEffect.waitSelector "loading_finished"] ++ shotList p ++
        [BrowserEffect.extract], ?_, wait_shot_extract_mem p⟩
      simp [TryOutcome.trace, h1, h2]
    · refine ⟨[BrowserEffect.waitSelector "loading_finished"] ++ shotList p ++
        [BrowserEffect.extract], ?_, wait_shot_extract_mem p⟩
      simp [TryOutcome.trace, h1, h2]

/-- Every effect of the pyppeteer `try` block is internal (no browser
lifecycle event), and no page dump occurs unless debug mode is on. -/
theorem pptrTryBody_mem (cfg : PptrConfig) (env : PptrEnv) (rs : List ResourceConfig)
    (p d : Option String) :
    ∀ e ∈ (pptrTryBody cfg env rs p d).trace,
      isInternalEffect e = true ∧ (cfg.debug = false → e ≠ BrowserEffect.pageDump) := by
  intro e he
  unfold pptrTryBody at he
  by_cases hg : env.gotoOk
  all_goals simp only [hg, Bool.not_true, Bool.not_false, if_true, if_false,
    Bool.false_eq_true, Bool.true_eq_false] at he
  case neg =>
    simp [TryOutcome.trace] at he
    subst he
    exact ⟨rfl, fun _ => by simp⟩
  case pos =>
    have hhead : ∀ x ∈ [BrowserEffect.goto (generate_calculator_url rs)] ++
        pptrDebugEffects cfg p d ++ [BrowserEffect.waitSelector "header"],
        isInternalEffect x = true ∧ (cfg.debug = false → x ≠ BrowserEffect.pageDump) := by
      intro x hx
      rcases List.mem_append.mp hx with h | h
      · rcases List.mem_append.mp h with h2 | h2
        · simp at h2
          subst h2
          exact ⟨rfl, fun _ => by simp⟩
        · obtain ⟨hi, _, hpd⟩ := pptrDebugEffects_mem cfg p d x h2
          exact ⟨hi, hpd⟩
      · simp at h
        subst h
        exact ⟨rfl, fun _ => by simp⟩
    by_cases hh : env.headerFound
    · simp only [hh, if_true] at he
      obtain ⟨rest, htr, hrest⟩ := pptrAfterHeader_trace env p _
      rw [htr] at he
      rcases List.mem_append.mp he with h | h
      · exact hhead e h
      · obtain ⟨hi, _, hpd⟩ := hrest e h
        exact ⟨hi, fun _ => hpd⟩
    · simp only [hh, if_false, Bool.false_eq_true] at he
      by_cases hb : env.gotoBaseOk
      all_goals simp only [hb, Bool.not_true, Bool.not_false, if_true, if_false,
        Bool.false_eq_true, Bool.true_eq_false] at he
      case neg =>
        simp only [TryOutcome.trace] at he
        rcases List.mem_append.mp he with h | h
        · exact hhead e h
        · simp at h
          subst h
          exact ⟨rfl, fun _ => by simp⟩
      case pos =>
        by_cases hab : env.headerFoundAtBase
        all_goals simp only [hab, Bool.not_true, Bool.not_false, if_true, if_false,
          Bool.false_eq_true, Bool.true_eq_false] at he
        case neg =>
          simp only [TryOutcome.trace] at he
          rcases List.mem_append.mp he with h | h
          · exact hhead e h
          · simp at h
            rcases h with rfl | rfl
            · exact ⟨rfl, fun _ => by simp⟩
            · exact ⟨rfl, fun _ => by simp⟩
        case pos =>
          obtain ⟨rest, htr, hrest⟩ := pptrAfterHeader_trace env p _
          rw [htr] at he
          rcases List.mem_append.mp he with h | h
          · rcases List.mem_append.mp h with h2 | h2
            · rcases List.mem_append.mp h2 with h3 | h3
              · exact hhead e h3
              · simp at h3
                rcases h3 with rfl | rfl
                · exact ⟨rfl, fun _ => by simp⟩
                · exact ⟨rfl, fun _ => by simp⟩
            · obtain ⟨r, _, rfl⟩ := List.mem_map.mp h2
              exact ⟨rfl, fun _ => by simp⟩
          · obtain ⟨hi, _, hpd⟩ := hrest e h
            exact ⟨hi, fun _ => hpd⟩

/-- When the screenshot or the extraction fails, the tail phase raises. -/
theorem pptrAfterHeader_raised (env : PptrEnv) (p : Option String) (tr : List BrowserEffect)
    (h : ((p.isSome && !env.screenshotOk) || !env.evalOk) = true) :
    ∃ rest msg, pptrAfterHeader env p tr = .raised (tr ++ rest) msg := by
  by_cases h1 : (p.isSome && !env.screenshotOk) = true
  · refine ⟨[BrowserEffect.waitSelector "loading_finished"] ++ shotList p,
      "Screenshot failed", ?_⟩
    simp [pptrAfterHeader, h1, List.append_assoc]
  · have h2 : env.evalOk = false := by
      rcases Bool.or_eq_true_iff.mp h with hc | hc
      · exact absurd hc h1
      · simpa using hc
    refine ⟨[BrowserEffect.waitSelector "loading_finished"] ++ shotList p ++
      [BrowserEffect.extract], "Evaluation failed", ?_⟩
    simp only [Bool.not_eq_true] at h1
    simp [pptrAfterHeader, h1, h2, List.append_assoc]

/-- Every trace of the pyppeteer `try` block begins with the navigation to
the generated calculator URL. -/
theorem pptrTryBody_starts (cfg : PptrConfig) (env : PptrEnv) (rs : List ResourceConfig)
    (p d : Option String) :
    ∃ rest, (pptrTryBody cfg env rs p d).trace =
      BrowserEffect.goto (generate_calculator_url rs) :: rest := by
  unfold pptrTryBody
  by_cases hg : env.gotoOk
  case neg => exact ⟨[], by simp [hg, TryOutcome.trace]⟩
  case pos =>
    by_cases hh : env.headerFound
    · obtain ⟨rest, htr, -⟩ := pptrAfterHeader_trace env p
        ([BrowserEffect.goto (generate_calculator_url rs)] ++ pptrDebugEffects cfg p d ++
          [BrowserEffect.waitSelector "header"])
      refine ⟨pptrDebugEffects cfg p d ++ [BrowserEffect.waitSelector "header"] ++ rest, ?_⟩
      simp only [hg, hh, Bool.not_true, if_true, if_false, Bool.false_eq_true]
      rw [htr]
      simp [List.append_assoc]
    · by_cases hb : env.gotoBaseOk
      case neg =>
        refine ⟨pptrDebugEffects cfg p d ++ [BrowserEffect.waitSelector "header"] ++
          [BrowserEffect.goto CALCULATOR_BASE_URL], ?_⟩
        simp only [hg, hh, hb, Bool.not_true, Bool.not_false, if_true, if_false,
          Bool.false_eq_true, TryOutcome.trace]
        simp [List.append_assoc]
      case pos =>
        by_cases hab : env.headerFoundAtBase
        case neg =>
          refine ⟨pptrDebugEffects cfg p d ++ [BrowserEffect.waitSelector "header"] ++
            [BrowserEffect.goto CALCULATOR_BASE_URL, BrowserEffect.waitSelector "header"], ?_⟩
          simp only [hg, hh, hb, hab, Bool.not_true, Bool.not_false, if_true, if_false,
            Bool.false_eq_true, TryOutcome.trace]
          simp [List.append_assoc]
        case pos =>
          obtain ⟨rest, htr, -⟩ := pptrAfterHeader_trace env p
            ([BrowserEffect.goto (generate_calculator_url rs)] ++ pptrDebugEffects cfg p d ++
              [BrowserEffect.waitSelector "header"] ++
              [BrowserEffect.goto CALCULATOR_BASE_URL, BrowserEffect.waitSelector "header"] ++
              rs.map (fun r => BrowserEffect.addService r.service))
          refine ⟨pptrDebugEffects cfg p d ++ [BrowserEffect.waitSelector "header"] ++
            [BrowserEffect.goto CALCULATOR_BASE_URL, BrowserEffect.waitSelector "header"] ++
            rs.map (fun r => BrowserEffect.addService r.service) ++ rest, ?_⟩
          simp only [hg, hh, hb, hab, Bool.not_true, Bool.not_false, if_true, if_false,
            Bool.false_eq_true]
          rw [htr]
          simp [List.append_assoc]

/-- Whenever one of the raising operations of the pyppeteer `try` block
fails, the block raises. -/
theorem pptrTryBody_raised (cfg : PptrConfig) (env : PptrEnv) (rs : List ResourceConfig)
    (p d : Option String) (hr : pptrTryRaises env p = true) :
    ∃ tr msg, pptrTryBody cfg env rs p d = .raised tr msg := by
  unfold pptrTryRaises at hr
  unfold pptrTryBody
  by_cases hg : env.gotoOk
  all_goals simp only [hg, Bool.not_true, Bool.not_false, if_true, if_false]
  case neg => exact ⟨_, _, rfl⟩
  case pos =>
    simp only [hg, Bool.not_true, Bool.false_or] at hr
    by_cases hh : env.headerFound
    · simp only [hh, if_true]
      simp only [hh, Bool.not_true, Bool.false_and, Bool.false_or] at hr
      obtain ⟨rest, msg, heq⟩ := pptrAfterHeader_raised env p _ hr
      exact ⟨_, _, heq⟩
    · simp only [hh, if_false, Bool.false_eq_true]
      by_cases hb : env.gotoBaseOk
      all_goals simp only [hb, Bool.not_true, Bool.not_false, if_true, if_false]
      case neg => exact ⟨_, _, rfl⟩
      case pos =>
        by_cases hab : env.headerFoundAtBase
        all_goals simp only [hab, Bool.not_true, Bool.not_false, if_true, if_false]
        case neg => exact ⟨_, _, rfl⟩
        case pos =>
          simp only [Bool.not_eq_true] at hh
          simp only [hh, hb, hab, Bool.not_false, Bool.not_true, Bool.true_and,
            Bool.and_false, Bool.false_or] at hr
          obtain ⟨rest, msg, heq⟩ := pptrAfterHeader_raised env p _ hr
          exact ⟨_, _, heq⟩

/-- The pyppeteer scraper enters the manual add-service flow exactly when
the header is absent at the generated URL and present after retrying the
base URL; in that case it adds the resources in list order. -/
theorem pptrTryBody_filter_adds (cfg : PptrConfig) (env : PptrEnv) (rs : List ResourceConfig)
    (p d : Option String) (hg : env.gotoOk = true) :
    ((pptrTryBody cfg env rs p d).trace).filter isAddEffect =
      if env.headerFound then []
      else if env.gotoBaseOk && env.headerFoundAtBase then
        rs.map (fun r => BrowserEffect.addService r.service)
      else [] := by
  have hhead : ([BrowserEffect.goto (generate_calculator_url rs)] ++
      pptrDebugEffects cfg p d ++ [BrowserEffect.waitSelector "header"]).filter isAddEffect
      = [] := by
    rw [List.filter_eq_nil_iff]
    intro a ha
    rcases List.mem_append.mp ha with h | h
    · rcases List.mem_append.mp h with h2 | h2
      · simp at h2
        subst h2
        simp [isAddEffect]
      · obtain ⟨-, hadd, -⟩ := pptrDebugEffects_mem cfg p d a h2
        simp [hadd]
    · simp at h
      subst h
      simp [isAddEffect]
  unfold pptrTryBody
  by_cases hh : env.headerFound
  · obtain ⟨rest, htr, hrest⟩ := pptrAfterHeader_trace env p
      ([BrowserEffect.goto (generate_calculator_url rs)] ++ pptrDebugEffects cfg p d ++
        [BrowserEffect.waitSelector "header"])
    have h1 : rest.filter isAddEffect = [] := by
      rw [List.filter_eq_nil_iff]
      intro a ha
      obtain ⟨-, hadd, -⟩ := hrest a ha
      simp [hadd]
    simp only [hg, hh, Bool.not_true, if_true, if_false, Bool.false_eq_true]
    rw [htr, List.filter_append, hhead, h1]
    simp
  · by_cases hb : env.gotoBaseOk
    case neg =>
      simp only [hg, hh, hb, Bool.not_true, Bool.not_false, if_true, if_false,
        Bool.false_eq_true, TryOutcome.trace]
      rw [List.filter_append, hhead]
      simp [isAddEffect, hb]
    case pos =>
      by_cases hab : env.headerFoundAtBase
      case neg =>
        simp only [hg, hh, hb, hab, Bool.not_true, Bool.not_false, if_true, if_false,
          Bool.false_eq_true, TryOutcome.trace]
        rw [List.filter_append, hhead]
        simp [isAddEffect, hab]
      case pos =>
        obtain ⟨rest, htr, hrest⟩ := pptrAfterHeader_trace env p
          ([BrowserEffect.goto (generate_calculator_url rs)] ++ pptrDebugEffects cfg p d ++
            [BrowserEffect.waitSelector "header"] ++
            [BrowserEffect.goto CALCULATOR_BASE_URL, BrowserEffect.waitSelector "header"] ++
            rs.map (fun r => BrowserEffect.addService r.service))
        have h1 : rest.filter isAddEffect = [] := by
          rw [List.filter_eq_nil_iff]
          intro a ha
          obtain ⟨-, hadd, -⟩ := hrest a ha
          simp [hadd]
        have hmap : (rs.map (fun r => BrowserEffect.addService r.service)).filter isAddEffect =
            rs.map (fun r => BrowserEffect.addService r.service) := by
          rw [List.filter_eq_self]
          intro a ha
          obtain ⟨r, -, rfl⟩ := List.mem_map.mp ha
          rfl
        have hdbg : (pptrDebugEffects cfg p d).filter isAddEffect = [] := by
          rw [List.filter_eq_nil_iff]
          intro a ha
          obtain ⟨-, hadd, -⟩ := pptrDebugEffects_mem cfg p d a ha
          simp [hadd]
        simp only [hg, hh, hb, hab, Bool.not_true, Bool.not_false, if_true, if_false,
          Bool.false_eq_true]
        rw [htr]
        simp only [List.filter_append]
        rw [hdbg, h1, hmap]
        simp [isAddEffect]

/-- The pyppeteer wrapper on a raising body: error dictionary, error
screenshot attempt, browser closed. -/
theorem pptr_raised_eq (cfg : PptrConfig) (env : PptrEnv) (rs : List ResourceConfig)
    (p d : Option String) (tr : List BrowserEffect) (msg : String)
    (hL : env.launchOk = true) (hN : env.newPageOk = true)
    (hb : pptrTryBody cfg env rs p d = .raised tr msg) :
    pptr_get_price_estimate cfg env rs p d =
      ([BrowserEffect.launch, BrowserEffect.newPage] ++ tr ++ errShotList p ++
        [BrowserEffect.close],
       .error ("Error accessing AWS Calculator: " ++ msg) (generate_calculator_url rs)) := by
  simp [pptr_get_price_estimate, hL, hN, hb]

/-- The pyppeteer wrapper on a completing body: success dictionary, browser
closed. -/
theorem pptr_ok_eq (cfg : PptrConfig) (env : PptrEnv) (rs : List ResourceConfig)
    (p d : Option String) (tr : List BrowserEffect) (data : ScrapedData)
    (hL : env.launchOk = true) (hN : env.newPageOk = true)
    (hb : pptrTryBody cfg env rs p d = .ok tr data) :
    pptr_get_price_estimate cfg env rs p d =
      ([BrowserEffect.launch, BrowserEffect.newPage] ++ tr ++ [BrowserEffect.close],
       .success data (generate_calculator_url rs)) := by
  simp [pptr_get_price_estimate, hL, hN, hb]

/-- The debug-dump effects of the Selenium run are internal and occur only
in debug mode. -/
theorem selDebugEffects_mem (cfg : SelConfig) (d : Option String) (e : BrowserEffect)
    (he : e ∈ selDebugEffects cfg d) :
    isInternalEffect e = true ∧ isAddEffect e = false ∧
      (cfg.debug = false → e ≠ BrowserEffect.pageDump) := by
  unfold selDebugEffects at he
  cases d with
  | none => simp at he
  | some dd =>
    cases hdg : cfg.debug
    · rw [hdg] at he
      simp at he
    · rw [hdg] at he
      simp at he
      rcases he with rfl | rfl
      · exact ⟨rfl, rfl, fun _ => by simp⟩
      · exact ⟨rfl, rfl, fun hf => by simp [hdg] at hf⟩

/-- The failure screenshot of one LLM-guided addition is a screenshot. -/
theorem selFailShot_mem (env : SelEnv) (p : Option String) (svc : String)
    (e : BrowserEffect) (he : e ∈ selFailShot env p svc) :
    isInternalEffect e = true ∧ isAddEffect e = false ∧ e ≠ BrowserEffect.pageDump := by
  unfold selFailShot at he
  by_cases ha : env.addOk
  · rw [ha] at he
    simp at he
  · simp only [Bool.not_eq_true] at ha
    rw [ha] at he
    cases p with
    | none => simp at he
    | some pp =>
      simp at he
      subst he
      exact ⟨rfl, rfl, by simp⟩

/-- The failure screenshot contributes nothing to the add-service filter. -/
theorem selFailShot_filter (env : SelEnv) (p : Option String) (svc : String) :
    (selFailShot env p svc).filter isAddEffect = [] := by
  rw [List.filter_eq_nil_iff]
  intro a ha
  obtain ⟨-, hadd, -⟩ := selFailShot_mem env p svc a ha
  simp [hadd]

/-- Effects of the LLM-guided fallback loop: LLM additions and failure
screenshots only. -/
theorem selLlmAddEffects_mem (env : SelEnv) (p : Option String) (rs : List ResourceConfig)
    (e : BrowserEffect) (he : e ∈ selLlmAddEffects env p rs) :
    isInternalEffect e = true ∧ e ≠ BrowserEffect.pageDump := by
  unfold selLlmAddEffects at he
  obtain ⟨r, -, hmem⟩ := List.mem_flatMap.mp he
  rcases List.mem_append.mp hmem with h | h
  · simp at h
    subst h
    exact ⟨rfl, by simp⟩
  · obtain ⟨hi, -, hpd⟩ := selFailShot_mem env p r.service e h
    exact ⟨hi, hpd⟩

/-- Filtering the LLM-guided fallback loop down to add-service entries
yields exactly one LLM addition per resource, in order. -/
theorem selLlmAddEffects_filter (env : SelEnv) (p : Option String)
    (rs : List ResourceConfig) :
    (selLlmAddEffects env p rs).filter isAddEffect =
      rs.map (fun r => BrowserEffect.llmAddService r.service) := by
  induction rs with
  | nil => rfl
  | cons r rs ih =>
    have hcons : selLlmAddEffects env p (r :: rs) =
        ([BrowserEffect.llmAddService r.service] ++ selFailShot env p r.service) ++
          selLlmAddEffects env p rs := by
      unfold selLlmAddEffects
      simp [List.flatMap_cons]
    rw [hcons, List.filter_append, List.filter_append, selFailShot_filter, ih]
    simp [isAddEffect]

/-- Every effect of the Selenium `try` block is internal, and no page dump
occurs unless debug mode is on. -/
theorem selTryBody_mem (cfg : SelConfig) (env : SelEnv) (rs : List ResourceConfig)
    (p d : Option String) :
    ∀ e ∈ (selTryBody cfg env rs p d).trace,
      isInternalEffect e = true ∧ (cfg.debug = false → e ≠ BrowserEffect.pageDump) := by
  intro e he
  unfold selTryBody at he
  by_cases hg : env.gotoOk
  case neg =>
    simp only [hg, Bool.not_false, if_true, TryOutcome.trace] at he
    simp at he
    subst he
    exact ⟨rfl, fun _ => by simp⟩
  case pos =>
    simp only [hg, Bool.not_true, if_false, Bool.false_eq_true] at he
    have hcore : ∀ y ∈ [BrowserEffect.goto (generate_calculator_url rs)] ++
        selDebugEffects cfg d ++ [BrowserEffect.waitSelector "total_price"],
        isInternalEffect y = true ∧ (cfg.debug = false → y ≠ BrowserEffect.pageDump) := by
      intro y hy
      rcases List.mem_append.mp hy with h | h
      · rcases List.mem_append.mp h with h2 | h2
        · simp at h2
          subst h2
          exact ⟨rfl, fun _ => by simp⟩
        · obtain ⟨hi, -, hpd⟩ := selDebugEffects_mem cfg d y h2
          exact ⟨hi, hpd⟩
      · simp at h
        subst h
        exact ⟨rfl, fun _ => by simp⟩
    have ht4 : ∀ x ∈ ((if env.totalFound then
          [BrowserEffect.goto (generate_calculator_url rs)] ++ selDebugEffects cfg d ++
            [BrowserEffect.waitSelector "total_price"]
        else
          [BrowserEffect.goto (generate_calculator_url rs)] ++ selDebugEffects cfg d ++
            [BrowserEffect.waitSelector "total_price"] ++
            selLlmAddEffects env p rs) ++ shotList p),
        isInternalEffect x = true ∧ (cfg.debug = false → x ≠ BrowserEffect.pageDump) := by
      intro x hx
      rcases List.mem_append.mp hx with h | h
      · by_cases htf : env.totalFound
        · rw [if_pos htf] at h
          exact hcore x h
        · rw [if_neg htf] at h
          rcases List.mem_append.mp h with h2 | h2
          · exact hcore x h2
          · obtain ⟨hi, hpd⟩ := selLlmAddEffects_mem env p rs x h2
            exact ⟨hi, fun _ => hpd⟩
      · cases p with
        | none => simp [shotList] at h
        | some pp =>
          simp [shotList] at h
          subst h
          exact ⟨rfl, fun _ => by simp⟩
    by_cases hsc : (p.isSome && !env.screenshotOk) = true
    · rw [if_pos hsc] at he
      simp only [TryOutcome.trace] at he
      exact ht4 e he
    · rw [if_neg hsc] at he
      simp only [TryOutcome.trace] at he
      rcases List.mem_append.mp he with h | h
      · exact ht4 e h
      · simp at h
        subst h
        exact ⟨rfl, fun _ => by simp⟩

/-- Every trace of the Selenium `try` block begins with the navigation to
the generated calculator URL. -/
theorem selTryBody_starts (cfg : SelConfig) (env : SelEnv) (rs : List ResourceConfig)
    (p d : Option String) :
    ∃ rest, (selTryBody cfg env rs p d).trace =
      BrowserEffect.goto (generate_calculator_url rs) :: rest := by
  unfold selTryBody
  by_cases hg : env.gotoOk
  case neg => exact ⟨[], by simp [hg, TryOutcome.trace]⟩
  case pos =>
    simp only [hg, Bool.not_true, if_false, Bool.false_eq_true]
    by_cases hsc : (p.isSome && !env.screenshotOk) = true
    · by_cases htf : env.totalFound
      · refine ⟨selDebugEffects cfg d ++ [BrowserEffect.waitSelector "total_price"] ++
          shotList p, ?_⟩
        simp only [hsc, htf, if_true, if_pos, TryOutcome.trace]
        simp [List.append_assoc]
      · refine ⟨selDebugEffects cfg d ++ [BrowserEffect.waitSelector "total_price"] ++
          selLlmAddEffects env p rs ++ shotList p, ?_⟩
        simp only [hsc, htf, if_pos, if_false, Bool.false_eq_true, TryOutcome.trace]
        simp [List.append_assoc]
    · by_cases htf : env.totalFound
      · refine ⟨selDebugEffects cfg d ++ [BrowserEffect.waitSelector "total_price"] ++
          shotList p ++ [BrowserEffect.extract], ?_⟩
        simp only [hsc, htf, if_true, if_neg, TryOutcome.trace, Bool.false_eq_true]
        simp [List.append_assoc]
      · refine ⟨selDebugEffects cfg d ++ [BrowserEffect.waitSelector "total_price"] ++
          selLlmAddEffects env p rs ++ shotList p ++ [BrowserEffect.extract], ?_⟩
        simp only [hsc, htf, if_neg, if_false, Bool.false_eq_true, TryOutcome.trace]
        simp [List.append_assoc]

/-- Whenever navigation or the screenshot fails, the Selenium `try` block
raises. -/
theorem selTryBody_raised (cfg : SelConfig) (env : SelEnv) (rs : List ResourceConfig)
    (p d : Option String) (hr : selTryRaises env p = true) :
    ∃ tr msg, selTryBody cfg env rs p d = .raised tr msg := by
  unfold selTryRaises at hr
  unfold selTryBody
  by_cases hg : env.gotoOk
  case neg =>
    simp only [Bool.not_eq_true] at hg
    exact ⟨[.goto (generate_calculator_url rs)], "Navigation failed", by simp [hg]⟩
  case pos =>
    simp only [hg, Bool.not_true, Bool.false_or] at hr
    simp only [hg, Bool.not_true, if_false, Bool.false_eq_true]
    rw [if_pos hr]
    exact ⟨_, _, rfl⟩

/-- The Selenium scraper enters the LLM-guided add-service flow exactly when
the total-price element is absent within the timeout; in that case it adds
the resources in list order. -/
theorem selTryBody_filter_adds (cfg : SelConfig) (env : SelEnv) (rs : List ResourceConfig)
    (p d : Option String) (hg : env.gotoOk = true) :
    ((selTryBody cfg env rs p d).trace).filter isAddEffect =
      if env.totalFound then []
      else rs.map (fun r => BrowserEffect.llmAddService r.service) := by
  have hcore : ([BrowserEffect.goto (generate_calculator_url rs)] ++
      selDebugEffects cfg d ++ [BrowserEffect.waitSelector "total_price"]).filter isAddEffect
      = [] := by
    rw [List.filter_eq_nil_iff]
    intro a ha
    rcases List.mem_append.mp ha with h | h
    · rcases List.mem_append.mp h with h2 | h2
      · simp at h2
        subst h2
        simp [isAddEffect]
      · obtain ⟨-, hadd, -⟩ := selDebugEffects_mem cfg d a h2
        simp [hadd]
    · simp at h
      subst h
      simp [isAddEffect]
  have hshot : (shotList p).filter isAddEffect = [] := by
    cases p with
    | none => rfl
    | some pp => simp [shotList, isAddEffect]
  unfold selTryBody
  simp only [hg, Bool.not_true, if_false, Bool.false_eq_true]
  by_cases htf : env.totalFound
  · rw [if_pos htf]
    by_cases hsc : (p.isSome && !env.screenshotOk) = true
    · rw [if_pos hsc]
      simp only [TryOutcome.trace]
      rw [List.filter_append, hcore, hshot]
      simp [htf]
    · rw [if_neg hsc]
      simp only [TryOutcome.trace]
      rw [List.filter_append, List.filter_append, hcore, hshot]
      simp [htf, isAddEffect]
  · rw [if_neg htf]
    by_cases hsc : (p.isSome && !env.screenshotOk) = true
    · rw [if_pos hsc]
      simp only [TryOutcome.trace]
      rw [List.filter_append, List.filter_append, hcore, hshot,
        selLlmAddEffects_filter]
      simp [htf]
    · rw [if_neg hsc]
      simp only [TryOutcome.trace]
      rw [List.filter_append, List.filter_append, List.filter_append, hcore, hshot,
        selLlmAddEffects_filter]
      simp [htf, isAddEffect]

/-- The Selenium wrapper on a raising body: error dictionary, error
screenshot attempt, driver quit only outside debug mode. -/
theorem sel_raised_eq (cfg : SelConfig) (env : SelEnv) (rs : List ResourceConfig)
    (p d : Option String) (tr : List BrowserEffect) (msg : String)
    (hs : env.setupOk = true) (hb : selTryBody cfg env rs p d = .raised tr msg) :
    selenium_get_price_estimate cfg env rs p d =
      ([BrowserEffect.launch] ++ tr ++ errShotList p ++
        (if cfg.debug then [] else [BrowserEffect.close]),
       .error ("Error accessing AWS Calculator: " ++ msg) (generate_calculator_url rs)) := by
  simp [selenium_get_price_estimate, hs, hb]

/-- The Selenium wrapper on a completing body: success dictionary, driver
quit only outside debug mode. -/
theorem sel_ok_eq (cfg : SelConfig) (env : SelEnv) (rs : List ResourceConfig)
    (p d : Option String) (tr : List BrowserEffect) (data : ScrapedData)
    (hs : env.setupOk = true) (hb : selTryBody cfg env rs p d = .ok tr data) :
    selenium_get_price_estimate cfg env rs p d =
      ([BrowserEffect.launch] ++ tr ++ (if cfg.debug then [] else [BrowserEffect.close]),
       .success data (generate_calculator_url rs)) := by
  simp [selenium_get_price_estimate, hs, hb]

theorem errShotList_filter (p : Option String) : (errShotList p).filter isAddEffect = [] := by
  cases p <;> simp [errShotList, isAddEffect]

theorem errShotList_no_pageDump (p : Option String) :
    BrowserEffect.pageDump ∉ errShotList p := by
  cases p <;> simp [errShotList]

theorem errShotList_no_lifecycle (p : Option String) :
    BrowserEffect.launch ∉ errShotList p ∧ BrowserEffect.newPage ∉ errShotList p ∧
      BrowserEffect.close ∉ errShotList p := by
  cases p <;> simp [errShotList]

/-- The Selenium scraper navigates first and enters the LLM-guided fallback
exactly when the total-price element is absent. -/
theorem selenium_filter_adds (cfg : SelConfig) (env : SelEnv) (rs : List ResourceConfig)
    (p d : Option String) (hs : env.setupOk = true) (hg : env.gotoOk = true) :
    ((selenium_get_price_estimate cfg env rs p d).1).filter isAddEffect =
      if env.totalFound then []
      else rs.map (fun r => BrowserEffect.llmAddService r.service) := by
  have hbody := selTryBody_filter_adds cfg env rs p d hg
  have hclose : (if cfg.debug then ([] : List BrowserEffect)
      else [BrowserEffect.close]).filter isAddEffect = [] := by
    cases cfg.debug <;> simp [isAddEffect]
  cases hb : selTryBody cfg env rs p d with
  | ok tr data =>
    rw [hb] at hbody
    simp only [TryOutcome.trace] at hbody
    have htrace : (selenium_get_price_estimate cfg env rs p d).1 =
        [BrowserEffect.launch] ++ tr ++ (if cfg.debug then [] else [BrowserEffect.close]) := by
      rw [sel_ok_eq cfg env rs p d tr data hs hb]
    rw [htrace, List.filter_append, List.filter_append, hbody, hclose]
    simp [isAddEffect]
  | raised tr msg =>
    rw [hb] at hbody
    simp only [TryOutcome.trace] at hbody
    have htrace : (selenium_get_price_estimate cfg env rs p d).1 =
        [BrowserEffect.launch] ++ tr ++ errShotList p ++
          (if cfg.debug then [] else [BrowserEffect.close]) := by
      rw [sel_raised_eq cfg env rs p d tr msg hs hb]
    rw [htrace, List.filter_append, List.filter_append, List.filter_append, hbody,
      hclose, errShotList_filter]
    simp [isAddEffect]

/-- The full Selenium trace begins with the launch and the navigation to the
generated calculator URL. -/
theorem selenium_starts (cfg : SelConfig) (env : SelEnv) (rs : List ResourceConfig)
    (p d : Option String) (hs : env.setupOk = true) :
    ∃ rest, (selenium_get_price_estimate cfg env rs p d).1 =
      BrowserEffect.launch :: BrowserEffect.goto (generate_calculator_url rs) :: rest := by
  obtain ⟨rest0, hrest0⟩ := selTryBody_starts cfg env rs p d
  cases hb : selTryBody cfg env rs p d with
  | ok tr data =>
    rw [hb] at hrest0
    simp only [TryOutcome.trace] at hrest0
    have htrace : (selenium_get_price_estimate cfg env rs p d).1 =
        [BrowserEffect.launch] ++ tr ++ (if cfg.debug then [] else [BrowserEffect.close]) := by
      rw [sel_ok_eq cfg env rs p d tr data hs hb]
    refine ⟨rest0 ++ (if cfg.debug then [] else [BrowserEffect.close]), ?_⟩
    rw [htrace, hrest0]
    simp
  | raised tr msg =>
    rw [hb] at hrest0
    simp only [TryOutcome.trace] at hrest0
    have htrace : (selenium_get_price_estimate cfg env rs p d).1 =
        [BrowserEffect.launch] ++ tr ++ errShotList p ++
          (if cfg.debug then [] else [BrowserEffect.close]) := by
      rw [sel_raised_eq cfg env rs p d tr msg hs hb]
    refine ⟨rest0 ++ errShotList p ++ (if cfg.debug then [] else [BrowserEffect.close]), ?_⟩
    rw [htrace, hrest0]
    simp

/-- The pyppeteer scraper navigates first and enters the manual fallback
exactly when the header is absent and the base-URL retry shows it. -/
theorem pptr_filter_adds (cfg : PptrConfig) (env : PptrEnv) (rs : List ResourceConfig)
    (p d : Option String) (hL : env.launchOk = true) (hN : env.newPageOk = true)
    (hg : env.gotoOk = true) :
    ((pptr_get_price_estimate cfg env rs p d).1).filter isAddEffect =
      if env.headerFound then []
      else if env.gotoBaseOk && env.headerFoundAtBase then
        rs.map (fun r => BrowserEffect.addService r.service)
      else [] := by
  have hbody := pptrTryBody_filter_adds cfg env rs p d hg
  cases hb : pptrTryBody cfg env rs p d with
  | ok tr data =>
    rw [hb] at hbody
    simp only [TryOutcome.trace] at hbody
    have htrace : (pptr_get_price_estimate cfg env rs p d).1 =
        [BrowserEffect.launch, BrowserEffect.newPage] ++ tr ++ [BrowserEffect.close] := by
      rw [pptr_ok_eq cfg env rs p d tr data hL hN hb]
    rw [htrace, List.filter_append, List.filter_append, hbody]
    simp [isAddEffect]
  | raised tr msg =>
    rw [hb] at hbody
    simp only [TryOutcome.trace] at hbody
    have htrace : (pptr_get_price_estimate cfg env rs p d).1 =
        [BrowserEffect.launch, BrowserEffect.newPage] ++ tr ++ errShotList p ++
          [BrowserEffect.close] := by
      rw [pptr_raised_eq cfg env rs p d tr msg hL hN hb]
    rw [htrace, List.filter_append, List.filter_append, List.filter_append, hbody,
      errShotList_filter]
    simp [isAddEffect]

/-- The full pyppeteer trace begins with the launch, the new page, and the
navigation to the generated calculator URL. -/
theorem pptr_starts (cfg : PptrConfig) (env : PptrEnv) (rs : List ResourceConfig)
    (p d : Option String) (hL : env.launchOk = true) (hN : env.newPageOk = true) :
    ∃ rest, (pptr_get_price_estimate cfg env rs p d).1 =
      BrowserEffect.launch :: BrowserEffect.newPage ::
        BrowserEffect.goto (generate_calculator_url rs) :: rest := by
  obtain ⟨rest0, hrest0⟩ := pptrTryBody_starts cfg env rs p d
  cases hb : pptrTryBody cfg env rs p d with
  | ok tr data =>
    rw [hb] at hrest0
    simp only [TryOutcome.trace] at hrest0
    have htrace : (pptr_get_price_estimate cfg env rs p d).1 =
        [BrowserEffect.launch, BrowserEffect.newPage] ++ tr ++ [BrowserEffect.close] := by
      rw [pptr_ok_eq cfg env rs p d tr data hL hN hb]
    refine ⟨rest0 ++ [BrowserEffect.close], ?_⟩
    rw [htrace, hrest0]
    simp
  | raised tr msg =>
    rw [hb] at hrest0
    simp only [TryOutcome.trace] at hrest0
    have htrace : (pptr_get_price_estimate cfg env rs p d).1 =
        [BrowserEffect.launch, BrowserEffect.newPage] ++ tr ++ errShotList p ++
          [BrowserEffect.close] := by
      rw [pptr_raised_eq cfg env rs p d tr msg hL hN hb]
    refine ⟨rest0 ++ errShotList p ++ [BrowserEffect.close], ?_⟩
    rw [htrace, hrest0]
    simp

/-! ## Claims -/

/-- C3 (counterexample): `calculate_resource_cost` accepts a resource whose
`quantity` is `-1` (nothing validates the sign) and returns a `PricingResult`
with a strictly negative `monthly_cost`: an EC2 `t3.micro` priced from the
fallback table yields `0.0104 * (-1) * 730 < 0`.  This refutes the claim
that every accepted `ResourceConfig` yields a non-negative monthly cost. -/
theorem claim_C3_counterexample :
    calculate_resource_cost .raises
        { service := "ec2", resource_type := "Web Server",
          specs := { instance_type := some "t3.micro" },
          region := "us-east-1", quantity := -1, usage_hours := 730 } =
      .ok { resource_type := "EC2 t3.micro", unit_price := 0.0104, quantity := -1,
            usage_hours := 730, monthly_cost := 0.0104 * ((-1 : Int) : ℚ) * 730,
            details := .ec2 "t3.micro" "us-east-1" 0.0104 } ∧
    (0.0104 * ((-1 : Int) : ℚ) * 730 < 0) := by
  refine ⟨rfl, by norm_num⟩

/-- C3 (amended): for every `ResourceConfig` with non-negative quantity,
usage hours and storage size, and a pricing API that never reports a
negative price, `calculate_resource_cost` returns a non-negative
`monthly_cost`, and `calculate_total_cost` over such resources returns a
non-negative `total_monthly_cost`. -/
theorem claim_C3 :
    (∀ (api : ApiOutcome) (r : ResourceConfig) (res : PricingResult),
        api.nonneg → r.wellFormed → calculate_resource_cost api r = .ok res →
        0 ≤ res.monthly_cost) ∧
    (∀ (api : ResourceConfig → ApiOutcome) (rs : List ResourceConfig) (out : TotalCost),
        (∀ r ∈ rs, (api r).nonneg ∧ r.wellFormed) → calculate_total_cost api rs = .ok out →
        0 ≤ out.total_monthly_cost) :=
  ⟨calculate_resource_cost_nonneg, calculate_total_cost_nonneg⟩

/-- C3 (witness): two EC2 `t3.micro` instances under fallback pricing have
non-negative monthly cost. -/
theorem claim_C3_witness :
    0 ≤ (PricingResult.mk "EC2 t3.micro" 0.0104 2 730 (0.0104 * ((2 : Int) : ℚ) * 730)
        (.ec2 "t3.micro" "us-east-1" 0.0104)).monthly_cost :=
  claim_C3.1 .raises sampleEc2 _ trivial
    ⟨by norm_num [sampleEc2], by norm_num [sampleEc2], fun n hn => nomatch hn⟩ rfl

set_option maxRecDepth 4000 in
/-- C4: `generate_calculator_url` is exactly the base URL, `?data=`, and the
URL-quoted base64 of the UTF-8 JSON dump of the calculator payload, composed
in that order; on the empty resource list it produces the expected encoded
URL (value cross-checked against the Python pipeline). -/
theorem claim_C4 :
    (∀ rs : List ResourceConfig,
      generate_calculator_url rs =
        "https://calculator.aws/#/estimate?data=" ++
          urlQuote (b64encode (utf8Bytes (dumpsCalculatorData
            (convert_resources_to_calculator_format rs))))) ∧
    generate_calculator_url [] =
      "https://calculator.aws/#/estimate?data=eyJlc3RpbWF0ZSI6IHsicmVzb3VyY2VzIjogW10sICJ0b3RhbENvc3QiOiAwLCAiY3VycmVuY3kiOiAiVVNEIiwgInRpbWVmcmFtZSI6ICJtb250aGx5In19" := by
  exact ⟨fun rs => rfl, by decide⟩

/-- C5: whenever the pricing API raises or yields no USD price, the three
unit-price lookups fall back to their static tables, with defaults `0.05`
(EC2, per hour), `0.1` (RDS, per hour) and `0.023` (S3, per GB-month) for
types absent from the tables. -/
theorem claim_C5 :
    ∀ (api : ApiOutcome) (it eng sc reg : String), api.failed →
      (get_ec2_price api it reg = (FALLBACK_PRICES_ec2.lookup it).getD 0.05 ∧
        (FALLBACK_PRICES_ec2.lookup it = none → get_ec2_price api it reg = 0.05)) ∧
      (get_rds_price api it eng reg = (FALLBACK_PRICES_rds.lookup it).getD 0.1 ∧
        (FALLBACK_PRICES_rds.lookup it = none → get_rds_price api it eng reg = 0.1)) ∧
      (get_s3_price api sc reg = (FALLBACK_PRICES_s3.lookup sc).getD 0.023 ∧
        (FALLBACK_PRICES_s3.lookup sc = none → get_s3_price api sc reg = 0.023)) := by
  intro api it eng sc reg hf
  have hrds : get_rds_price api it eng reg = (FALLBACK_PRICES_rds.lookup it).getD 0.1 := by
    by_cases hs : it = "storage"
    · subst hs
      rfl
    · cases api with
      | raises => simp [get_rds_price, hs]
      | returns l =>
        have hnone : extract_price l = none := hf
        simp [get_rds_price, hs, hnone]
  have hec2 : get_ec2_price api it reg = (FALLBACK_PRICES_ec2.lookup it).getD 0.05 := by
    cases api with
    | raises => rfl
    | returns l =>
      have hnone : extract_price l = none := hf
      simp [get_ec2_price, hnone]
  have hs3 : get_s3_price api sc reg = (FALLBACK_PRICES_s3.lookup sc).getD 0.023 := by
    cases api with
    | raises => rfl
    | returns l =>
      have hnone : extract_price l = none := hf
      simp [get_s3_price, hnone]
  exact ⟨⟨hec2, fun h => by rw [hec2, h]; rfl⟩,
    ⟨hrds, fun h => by rw [hrds, h]; rfl⟩,
    ⟨hs3, fun h => by rw [hs3, h]; rfl⟩⟩

/-- C5 (witness): for an instance type and storage class absent from every
fallback table, a raising API yields exactly the default fallback prices. -/
theorem claim_C5_witness :
    get_ec2_price .raises "m6.metal" "us-east-1" = 0.05 ∧
    get_rds_price .raises "db.m6.metal" "mysql" "us-east-1" = 0.1 ∧
    get_s3_price .raises "Express" "us-east-1" = 0.023 := by
  have h1 := claim_C5 .raises "m6.metal" "mysql" "Express" "us-east-1" trivial
  have h2 := claim_C5 .raises "db.m6.metal" "mysql" "Express" "us-east-1" trivial
  exact ⟨h1.1.2 rfl, h2.2.1.2 rfl, h1.2.2.2 rfl⟩

/-- C7: `load_resources_from_config` returns one `ResourceConfig` per entry
of the `resources` list, in order, copying `service`, `type` and `specs` and
defaulting `region`, `quantity` and `usage_hours` to the service default
region, `1` and `730.0`; a configuration without a `resources` key yields
the empty list. -/
theorem claim_C7 :
    ∀ (dr : String) (cfg : RawConfig),
      (load_resources_from_config dr cfg).length = ((cfg.resources).getD []).length ∧
      (∀ i (hi : i < ((cfg.resources).getD []).length)
          (hj : i < (load_resources_from_config dr cfg).length),
        (load_resources_from_config dr cfg).get ⟨i, hj⟩ =
          { service := (((cfg.resources).getD []).get ⟨i, hi⟩).service
            resource_type := (((cfg.resources).getD []).get ⟨i, hi⟩).type
            specs := (((cfg.resources).getD []).get ⟨i, hi⟩).specs
            region := ((((cfg.resources).getD []).get ⟨i, hi⟩).region).getD dr
            quantity := ((((cfg.resources).getD []).get ⟨i, hi⟩).quantity).getD 1
            usage_hours := ((((cfg.resources).getD []).get ⟨i, hi⟩).usage_hours).getD 730.0 }) ∧
      (cfg.resources = none → load_resources_from_config dr cfg = []) := by
  intro dr cfg
  refine ⟨by simp [load_resources_from_config], ?_, ?_⟩
  · intro i hi hj
    simp [load_resources_from_config]
  · intro h
    simp [load_resources_from_config, h]

/-- C7 (witness): a one-entry configuration with all optional keys absent
loads with the defaults, and a configuration without `resources` loads to
the empty list. -/
theorem claim_C7_witness :
    load_resources_from_config "eu-west-1" { resources := none } = [] ∧
    (load_resources_from_config "eu-west-1"
        { resources :=
            some [{ service := "s3", type := "Bucket", specs := { storage_gb := some (.int 50) } }] }).get
      ⟨0, by decide⟩ =
      { service := "s3", resource_type := "Bucket",
        specs := { storage_gb := some (.int 50) }, region := "eu-west-1",
        quantity := 1, usage_hours := 730.0 } := by
  constructor
  · exact (claim_C7 "eu-west-1" { resources := none }).2.2 rfl
  · exact (claim_C7 "eu-west-1" _).2.1 0 (by decide) (by decide)

/-- C8: when every per-resource computation succeeds, `calculate_total_cost`
returns one `resources` entry per input resource, in order, each projected
from the corresponding `PricingResult`, and `total_monthly_cost` equal to
the sum of the entries' `monthly_cost` values. -/
theorem claim_C8 :
    ∀ (api : ResourceConfig → ApiOutcome) (rs : List ResourceConfig) (out : TotalCost),
      calculate_total_cost api rs = .ok out →
      out.resources.length = rs.length ∧
      (∀ i (hi : i < rs.length) (hj : i < out.resources.length),
        ∃ res, calculate_resource_cost (api (rs.get ⟨i, hi⟩)) (rs.get ⟨i, hi⟩) = .ok res ∧
          out.resources.get ⟨i, hj⟩ = toCostEntry res) ∧
      out.total_monthly_cost = (out.resources.map (fun e => e.monthly_cost)).sum := by
  intro api rs out he
  unfold calculate_total_cost at he
  cases h1 : calcResults api rs with
  | error e => rw [h1] at he; cases he
  | ok results =>
    rw [h1] at he
    obtain rfl := (Except.ok.injEq _ _).mp he.symm
    obtain ⟨hlen, hpt⟩ := calcResults_spec api rs results h1
    refine ⟨by simpa using hlen, ?_, ?_⟩
    · intro i hi hj
      have hj' : i < results.length := by simpa using hj
      refine ⟨results.get ⟨i, hj'⟩, hpt i hi hj', ?_⟩
      simp
    · simp [List.map_map]
      rfl

/-- C8 (witness): an SQS queue and a WAF ACL produce two entries whose
monthly costs sum to the reported total. -/
theorem claim_C8_witness :
    ({ total_monthly_cost := ([(0.40 : ℚ), 5.00]).sum,
       resources := [⟨"SQS Standard Queue", 0.40, .fixedMonthly "us-east-1" 0.40⟩,
                     ⟨"WAF", 5.00, .fixedMonthly "us-east-1" 5.00⟩] } : TotalCost).resources.length =
      [sampleSqs, sampleWaf].length ∧
    ({ total_monthly_cost := ([(0.40 : ℚ), 5.00]).sum,
       resources := [⟨"SQS Standard Queue", 0.40, .fixedMonthly "us-east-1" 0.40⟩,
                     ⟨"WAF", 5.00, .fixedMonthly "us-east-1" 5.00⟩] } : TotalCost).total_monthly_cost =
      (({ total_monthly_cost := ([(0.40 : ℚ), 5.00]).sum,
          resources := [⟨"SQS Standard Queue", 0.40, .fixedMonthly "us-east-1" 0.40⟩,
                        ⟨"WAF", 5.00, .fixedMonthly "us-east-1" 5.00⟩] } : TotalCost).resources.map
        (fun e => e.monthly_cost)).sum := by
  have h := claim_C8 (fun _ => .raises) [sampleSqs, sampleWaf] _ rfl
  exact ⟨h.1, h.2.2⟩

/-- C9: `calculate_resource_cost` raises `ValueError` exactly when the
service is not one of the six supported ones, and for those six it returns a
`PricingResult` provided the mandatorily accessed `specs` keys are present. -/
theorem claim_C9 :
    ∀ (api : ApiOutcome) (r : ResourceConfig),
      ((∃ msg, calculate_resource_cost api r = .error (.valueError msg)) ↔
        r.service ∉ (["ec2", "rds", "s3", "sqs", "cloudwatch", "waf"] : List String)) ∧
      (r.service ∈ (["ec2", "rds", "s3", "sqs", "cloudwatch", "waf"] : List String) →
        requiredSpecsPresent r → ∃ res, calculate_resource_cost api r = .ok res) := by
  intro api r
  obtain ⟨hval, hnoval, hok⟩ := supported_services_spec api r
  refine ⟨⟨?_, ?_⟩, hok⟩
  · rintro ⟨msg, hmsg⟩ hmem
    exact hnoval hmem msg hmsg
  · intro hmem
    exact ⟨_, hval hmem⟩

/-- C9 (witness): a `lambda` resource raises `ValueError`, and an EC2
resource with its `instance_type` key present prices successfully. -/
theorem claim_C9_witness :
    (∃ msg, calculate_resource_cost .raises
        { service := "lambda", resource_type := "Fn", specs := {}, region := "us-east-1" } =
      .error (.valueError msg)) ∧
    ∃ res, calculate_resource_cost .raises sampleEc2 = .ok res := by
  constructor
  · exact (claim_C9 .raises _).1.mpr (by decide)
  · exact (claim_C9 .raises sampleEc2).2 (by decide)
      ⟨fun _ => rfl, fun h => nomatch h⟩

/-- C10: resources outside `ec2`/`rds`/`s3` convert to `None` and are
silently dropped from the payload, so `generate_calculator_url` is total on
them even though (for example) an SQS queue contributes a positive monthly
cost locally: the URL for `[sqs]` equals the URL for `[]`. -/
theorem claim_C10 :
    (∀ r : ResourceConfig, r.service ∉ (["ec2", "rds", "s3"] : List String) →
      convert_resource_to_calculator_format r = none) ∧
    (∀ rs : List ResourceConfig,
      (convert_resources_to_calculator_format rs).resources =
        rs.filterMap convert_resource_to_calculator_format) ∧
    convert_resource_to_calculator_format sampleSqs = none ∧
    calculate_resource_cost .raises sampleSqs =
      .ok { resource_type := "SQS Standard Queue", unit_price := 0.40, quantity := 1,
            usage_hours := 730, monthly_cost := 0.40,
            details := .fixedMonthly "us-east-1" 0.40 } ∧
    (0 : ℚ) < 0.40 ∧
    generate_calculator_url [sampleSqs] = generate_calculator_url [] := by
  exact ⟨convert_unsupported_none,
    fun rs => collectCalculatorResources_eq_filterMap rs,
    rfl, rfl, by norm_num, rfl⟩

/-- C10 (witness): a WAF resource is dropped by the URL converter. -/
theorem claim_C10_witness :
    convert_resource_to_calculator_format sampleWaf = none :=
  claim_C10.1 sampleWaf (by decide)

/-- C1 (counterexample): on a navigation failure with a screenshot path
provided and debug off, the pyppeteer scraper returns the error dictionary
and attempts the error screenshot, but saves no page dump — refuting the
"(and a page dump)" part of the claim. -/
theorem claim_C1_counterexample :
    (pptr_get_price_estimate {} { gotoOk := false } [] (some "shot.png") none).2 =
      .error ("Error accessing AWS Calculator: " ++ "Navigation failed")
        (generate_calculator_url []) ∧
    BrowserEffect.screenshot "shot_error.png" ∈
      (pptr_get_price_estimate {} { gotoOk := false } [] (some "shot.png") none).1 ∧
    BrowserEffect.pageDump ∉
      (pptr_get_price_estimate {} { gotoOk := false } [] (some "shot.png") none).1 :=
  ⟨rfl, by decide, by decide⟩

/-- C1 (amended): whenever the scraping body fails internally, both browser
calculators return an error dictionary (status `error` with a message and
the calculator URL) instead of propagating the exception, and when a
screenshot path was provided they attempt an error screenshot before
returning; the page dump is produced only by debug mode, never by the error
path itself. -/
theorem claim_C1 :
    (∀ (cfg : PptrConfig) (env : PptrEnv) (rs : List ResourceConfig) (p d : Option String),
      env.launchOk = true → env.newPageOk = true → pptrTryRaises env p = true →
      (∃ msg, (pptr_get_price_estimate cfg env rs p d).2 =
        .error ("Error accessing AWS Calculator: " ++ msg) (generate_calculator_url rs)) ∧
      (∀ pp, p = some pp →
        BrowserEffect.screenshot (strReplace pp ".png" "_error.png") ∈
          (pptr_get_price_estimate cfg env rs p d).1) ∧
      (cfg.debug = false →
        BrowserEffect.pageDump ∉ (pptr_get_price_estimate cfg env rs p d).1)) ∧
    (∀ (cfg : SelConfig) (env : SelEnv) (rs : List ResourceConfig) (p d : Option String),
      env.setupOk = true → selTryRaises env p = true →
      (∃ msg, (selenium_get_price_estimate cfg env rs p d).2 =
        .error ("Error accessing AWS Calculator: " ++ msg) (generate_calculator_url rs)) ∧
      (∀ pp, p = some pp →
        BrowserEffect.screenshot (strReplace pp ".png" "_error.png") ∈
          (selenium_get_price_estimate cfg env rs p d).1) ∧
      (cfg.debug = false →
        BrowserEffect.pageDump ∉ (selenium_get_price_estimate cfg env rs p d).1)) := by
  constructor
  · intro cfg env rs p d hL hN hr
    obtain ⟨tr, msg, hb⟩ := pptrTryBody_raised cfg env rs p d hr
    have hmemtr := pptrTryBody_mem cfg env rs p d
    rw [hb] at hmemtr
    simp only [TryOutcome.trace] at hmemtr
    have htrace : (pptr_get_price_estimate cfg env rs p d).1 =
        [BrowserEffect.launch, BrowserEffect.newPage] ++ tr ++ errShotList p ++
          [BrowserEffect.close] := by
      rw [pptr_raised_eq cfg env rs p d tr msg hL hN hb]
    have hres : (pptr_get_price_estimate cfg env rs p d).2 =
        .error ("Error accessing AWS Calculator: " ++ msg) (generate_calculator_url rs) := by
      rw [pptr_raised_eq cfg env rs p d tr msg hL hN hb]
    refine ⟨⟨msg, hres⟩, ?_, ?_⟩
    · intro pp hpp
      subst hpp
      rw [htrace]
      simp [errShotList]
    · intro hdbg hmem
      rw [htrace] at hmem
      simp only [List.mem_append] at hmem
      rcases hmem with ((hmem | hmem) | hmem) | hmem
      · simp at hmem
      · exact (hmemtr _ hmem).2 hdbg rfl
      · exact errShotList_no_pageDump p hmem
      · simp at hmem
  · intro cfg env rs p d hs hr
    obtain ⟨tr, msg, hb⟩ := selTryBody_raised cfg env rs p d hr
    have hmemtr := selTryBody_mem cfg env rs p d
    rw [hb] at hmemtr
    simp only [TryOutcome.trace] at hmemtr
    have htrace : (selenium_get_price_estimate cfg env rs p d).1 =
        [BrowserEffect.launch] ++ tr ++ errShotList p ++
          (if cfg.debug then [] else [BrowserEffect.close]) := by
      rw [sel_raised_eq cfg env rs p d tr msg hs hb]
    have hres : (selenium_get_price_estimate cfg env rs p d).2 =
        .error ("Error accessing AWS Calculator: " ++ msg) (generate_calculator_url rs) := by
      rw [sel_raised_eq cfg env rs p d tr msg hs hb]
    refine ⟨⟨msg, hres⟩, ?_, ?_⟩
    · intro pp hpp
      subst hpp
      rw [htrace]
      simp [errShotList]
    · intro hdbg hmem
      rw [htrace] at hmem
      simp only [List.mem_append] at hmem
      rcases hmem with ((hmem | hmem) | hmem) | hmem
      · simp at hmem
      · exact (hmemtr _ hmem).2 hdbg rfl
      · exact errShotList_no_pageDump p hmem
      · rw [hdbg] at hmem
        simp at hmem

/-- C1 (witness): a failing extraction with a screenshot path yields the
error screenshot next to the requested path. -/
theorem claim_C1_witness :
    BrowserEffect.screenshot "out/shot_error.png" ∈
      (pptr_get_price_estimate {} ({ evalOk := false } : PptrEnv) []
        (some "out/shot.png") none).1 := by
  have h := claim_C1.1 {} ({ evalOk := false } : PptrEnv) [] (some "out/shot.png") none
    rfl rfl rfl
  have e : strReplace "out/shot.png" ".png" "_error.png" = "out/shot_error.png" := rfl
  exact e ▸ h.2.1 "out/shot.png" rfl

/-- C2 (counterexample): in the pyppeteer variant the total-price element
being absent within the timeout does not trigger the manual add-service
fallback: with the header present but the price display missing, the run
completes with a zero total and no add-service step, refuting "exactly
when the expected total-price element is absent". -/
theorem claim_C2_counterexample :
    ((pptr_get_price_estimate {} ({ loadingFound := false } : PptrEnv) [sampleSqs]
        none none).1).filter isAddEffect = [] ∧
    (pptr_get_price_estimate {} ({ loadingFound := false } : PptrEnv) [sampleSqs]
        none none).2 =
      .success ⟨0, "No total found", []⟩ (generate_calculator_url [sampleSqs]) :=
  ⟨by decide, rfl⟩

/-- C2 (amended): both scrapers navigate to the generated calculator URL
first.  The Selenium scraper enters the LLM-guided add-service fallback —
one addition per resource, in list order — exactly when the total-price
element is absent within the timeout; the pyppeteer scraper instead enters
its (non-LLM) manual fallback exactly when the page header is absent and
the retry at the base URL shows it. -/
theorem claim_C2 :
    (∀ (cfg : SelConfig) (env : SelEnv) (rs : List ResourceConfig) (p d : Option String),
      env.setupOk = true → env.gotoOk = true →
      (∃ rest, (selenium_get_price_estimate cfg env rs p d).1 =
        BrowserEffect.launch :: BrowserEffect.goto (generate_calculator_url rs) :: rest) ∧
      ((selenium_get_price_estimate cfg env rs p d).1).filter isAddEffect =
        (if env.totalFound then []
         else rs.map (fun r => BrowserEffect.llmAddService r.service))) ∧
    (∀ (cfg : PptrConfig) (env : PptrEnv) (rs : List ResourceConfig) (p d : Option String),
      env.launchOk = true → env.newPageOk = true → env.gotoOk = true →
      (∃ rest, (pptr_get_price_estimate cfg env rs p d).1 =
        BrowserEffect.launch :: BrowserEffect.newPage ::
          BrowserEffect.goto (generate_calculator_url rs) :: rest) ∧
      ((pptr_get_price_estimate cfg env rs p d).1).filter isAddEffect =
        (if env.headerFound then []
         else if env.gotoBaseOk && env.headerFoundAtBase then
           rs.map (fun r => BrowserEffect.addService r.service)
         else [])) := by
  constructor
  · intro cfg env rs p d hs hg
    exact ⟨selenium_starts cfg env rs p d hs, selenium_filter_adds cfg env rs p d hs hg⟩
  · intro cfg env rs p d hL hN hg
    exact ⟨pptr_starts cfg env rs p d hL hN, pptr_filter_adds cfg env rs p d hL hN hg⟩

/-- C2 (witness): with the total-price element absent, the Selenium run on
one SQS resource performs exactly one LLM-guided addition. -/
theorem claim_C2_witness :
    ((selenium_get_price_estimate {} ({ totalFound := false } : SelEnv) [sampleSqs]
        none none).1).filter isAddEffect =
      [BrowserEffect.llmAddService "sqs"] := by
  have h := (claim_C2.1 {} ({ totalFound := false } : SelEnv) [sampleSqs] none none
    rfl rfl).2
  simpa [sampleSqs] using h

/-- C6 (counterexample): the Selenium variant constructed with `debug=True`
opens a browser and never quits it: the trace of a successful run contains
one launch and no close, refuting the claim that every invocation closes
its browser before returning. -/
theorem claim_C6_counterexample :
    ((selenium_get_price_estimate { debug := true } {} [] none none).1).count
        BrowserEffect.launch = 1 ∧
    ((selenium_get_price_estimate { debug := true } {} [] none none).1).count
        BrowserEffect.close = 0 :=
  ⟨by decide, by decide⟩

/-- C6 (amended): with debug disabled (and, for pyppeteer, the page opening
itself succeeding), each `get_price_estimate` call opens exactly one
browser and closes it exactly once, the close being the final effect, on
both the success and the error path; the Selenium variant skips the
`driver.quit()` when debug is enabled. -/
theorem claim_C6 :
    (∀ (cfg : SelConfig) (env : SelEnv) (rs : List ResourceConfig) (p d : Option String),
      cfg.debug = false → env.setupOk = true →
      ((selenium_get_price_estimate cfg env rs p d).1).count BrowserEffect.launch = 1 ∧
      ((selenium_get_price_estimate cfg env rs p d).1).count BrowserEffect.close = 1 ∧
      ((selenium_get_price_estimate cfg env rs p d).1).getLast? =
        some BrowserEffect.close) ∧
    (∀ (cfg : PptrConfig) (env : PptrEnv) (rs : List ResourceConfig) (p d : Option String),
      env.launchOk = true → env.newPageOk = true →
      ((pptr_get_price_estimate cfg env rs p d).1).count BrowserEffect.launch = 1 ∧
      ((pptr_get_price_estimate cfg env rs p d).1).count BrowserEffect.close = 1 ∧
      ((pptr_get_price_estimate cfg env rs p d).1).getLast? =
        some BrowserEffect.close) := by
  constructor
  · intro cfg env rs p d hdbg hs
    cases hb : selTryBody cfg env rs p d with
    | ok tr data =>
      have hmemtr := selTryBody_mem cfg env rs p d
      rw [hb] at hmemtr
      simp only [TryOutcome.trace] at hmemtr
      have hnl : BrowserEffect.launch ∉ tr := fun h => by
        have := (hmemtr _ h).1
        simp [isInternalEffect] at this
      have hnc : BrowserEffect.close ∉ tr := fun h => by
        have := (hmemtr _ h).1
        simp [isInternalEffect] at this
      have htrace : (selenium_get_price_estimate cfg env rs p d).1 =
          [BrowserEffect.launch] ++ tr ++ [BrowserEffect.close] := by
        rw [sel_ok_eq cfg env rs p d tr data hs hb, hdbg]
        simp
      rw [htrace]
      refine ⟨?_, ?_, ?_⟩
      · simp [List.count_append, List.count_eq_zero.mpr hnl]
      · simp [List.count_append, List.count_eq_zero.mpr hnc]
      · exact List.getLast?_concat _
    | raised tr msg =>
      have hmemtr := selTryBody_mem cfg env rs p d
      rw [hb] at hmemtr
      simp only [TryOutcome.trace] at hmemtr
      have hnl : BrowserEffect.launch ∉ tr := fun h => by
        have := (hmemtr _ h).1
        simp [isInternalEffect] at this
      have hnc : BrowserEffect.close ∉ tr := fun h => by
        have := (hmemtr _ h).1
        simp [isInternalEffect] at this
      obtain ⟨hel, -, hec⟩ := errShotList_no_lifecycle p
      have htrace : (selenium_get_price_estimate cfg env rs p d).1 =
          [BrowserEffect.launch] ++ tr ++ errShotList p ++ [BrowserEffect.close] := by
        rw [sel_raised_eq cfg env rs p d tr msg hs hb, hdbg]
        simp
      rw [htrace]
      refine ⟨?_, ?_, ?_⟩
      · simp [List.count_append, List.count_eq_zero.mpr hnl, List.count_eq_zero.mpr hel]
      · simp [List.count_append, List.count_eq_zero.mpr hnc, List.count_eq_zero.mpr hec]
      · exact List.getLast?_concat _
  · intro cfg env rs p d hL hN
    cases hb : pptrTryBody cfg env rs p d with
    | ok tr data =>
      have hmemtr := pptrTryBody_mem cfg env rs p d
      rw [hb] at hmemtr
      simp only [TryOutcome.trace] at hmemtr
      have hnl : BrowserEffect.launch ∉ tr := fun h => by
        have := (hmemtr _ h).1
        simp [isInternalEffect] at this
      have hnc : BrowserEffect.close ∉ tr := fun h => by
        have := (hmemtr _ h).1
        simp [isInternalEffect] at this
      have htrace : (pptr_get_price_estimate cfg env rs p d).1 =
          [BrowserEffect.launch, BrowserEffect.newPage] ++ tr ++ [BrowserEffect.close] := by
        rw [pptr_ok_eq cfg env rs p d tr data hL hN hb]
      rw [htrace]
      refine ⟨?_, ?_, ?_⟩
      · simp [List.count_append, List.count_eq_zero.mpr hnl]
      · simp [List.count_append, List.count_eq_zero.mpr hnc]
      · exact List.getLast?_concat _
    | raised tr msg =>
      have hmemtr := pptrTryBody_mem cfg env rs p d
      rw [hb] at hmemtr
      simp only [TryOutcome.trace] at hmemtr
      have hnl : BrowserEffect.launch ∉ tr := fun h => by
        have := (hmemtr _ h).1
        simp [isInternalEffect] at this
      have hnc : BrowserEffect.close ∉ tr := fun h => by
        have := (hmemtr _ h).1
        simp [isInternalEffect] at this
      obtain ⟨hel, -, hec⟩ := errShotList_no_lifecycle p
      have htrace : (pptr_get_price_estimate cfg env rs p d).1 =
          [BrowserEffect.launch, BrowserEffect.newPage] ++ tr ++ errShotList p ++
            [BrowserEffect.close] := by
        rw [pptr_raised_eq cfg env rs p d tr msg hL hN hb]
      rw [htrace]
      refine ⟨?_, ?_, ?_⟩
      · simp [List.count_append, List.count_eq_zero.mpr hnl, List.count_eq_zero.mpr hel]
      · simp [List.count_append, List.count_eq_zero.mpr hnc, List.count_eq_zero.mpr hec]
      · exact List.getLast?_concat _

/-- C6 (witness): a default (non-debug) run of each variant closes its
browser, the close being the final effect. -/
theorem claim_C6_witness :
    ((selenium_get_price_estimate {} {} [] none none).1).count BrowserEffect.close = 1 ∧
    ((pptr_get_price_estimate {} {} [] none none).1).getLast? =
      some BrowserEffect.close :=
  ⟨(claim_C6.1 {} {} [] none none rfl rfl).2.1,
   (claim_C6.2 {} {} [] none none rfl rfl).2.2⟩

end AwsPlanning
